import Mathlib

/-!
Shallow embedding of the copy-trading engine (`src/fsdownload/src`) in Lean 4.

Conventions of the embedding:
* `u64` values are `Nat`; every arithmetic step of the source is either
  guarded (`if pre > post then pre - post`) or saturating (`saturating_sub`
  is exactly `Nat.sub`), so no `% 2^64` is needed at those sites; where the
  source uses unchecked `+=` on `u64` (the CPMM tip accumulation) we add
  modulo `2^64` to mirror release-mode wrapping.
* `f64` configuration arithmetic (trade-size bounds, lamport conversion)
  is modelled over exact rationals `Rat`; concrete inputs in theorems use
  values on which IEEE double arithmetic is exact, so the model and the
  source agree there.
* Rust panics (direct slice indexing, `unwrap`) are a distinguished
  `Fault.panics` outcome, separate from `anyhow` errors (`Fault.failure`).
* `Pubkey` is modelled as its base58 string; `Pubkey::from_str` is modelled
  as always succeeding (base58 validation of the external solana-sdk is not
  re-implemented); all concrete inputs use well-formed keys taken from the
  source's own constants, on which the real `from_str` succeeds.
* Wall-clock timestamps (`Utc::now`) are modelled as `0`.
* File I/O (`PoolLoader::load`) is modelled by passing the loaded registry
  as an explicit argument.
-/

/-- Outcome of running a piece of Rust code: a panic, an `anyhow` error, or
a value. -/
inductive Fault where
  | panics : Fault
  | failure (msg : String) : Fault
deriving DecidableEq, Repr

abbrev PRes (α : Type) := Except Fault α

/-- Rust slice indexing `xs[i]`: panics when out of bounds. -/
def idxPanic (xs : List α) (i : Nat) : PRes α :=
  match xs.get? i with
  | some v => Except.ok v
  | none => Except.error Fault.panics

/-- Little-endian `u64` from 8 bytes (`u64::from_le_bytes`). -/
def leU64 (bytes : List Nat) : Nat :=
  bytes.foldr (fun b acc => b + 256 * acc) 0

/-- `pat` is a prefix of the character list. -/
def startsWithChars : List Char → List Char → Bool
  | _, [] => true
  | [], _ :: _ => false
  | c :: cs, p :: ps => c == p && startsWithChars cs ps

/-- `pat` occurs as a contiguous run of the character list. -/
def hasSubChars (pat : List Char) : List Char → Bool
  | [] => pat.isEmpty
  | c :: cs => startsWithChars (c :: cs) pat || hasSubChars pat cs

/-- `String::contains` for a substring pattern. -/
def containsSub (s pat : String) : Bool :=
  hasSubChars pat.toList s.toList

/- ===== src/fsdownload/src/types/mod.rs ===== -/

def RAYDIUM_AMM_V4 : String := "675kPX9MHTjS2zt1qfr1NYHuzeLXfQM9H24wFSUt1Mp8"
def RAYDIUM_CPMM : String := "CPMMoo8L3F4NbTegBCKVNunggL7H1ZpdTHKxQB5qKP1C"
def RAYDIUM_CLMM : String := "CAMMCzo5YL8w4VFF8KVHrK22GGUsp5VTaW7grrKgrWqK"
def PUMP_FUN_PROGRAM : String := "6EF8rrecthR5Dkzon8Nwu78hRvfCKubJ14M5uBEwdFi"
def WSOL_MINT : String := "So11111111111111111111111111111111111111112"
def USDC_MINT : String := "EPjFWdd5AufqSSqeM2qN1xzybapC8G4wEGGkZwyTDt1v"
def RAYDIUM_AMM_SWAP_INSTRUCTION : Nat := 9
def RAYDIUM_CPMM_SWAP_BASE_INPUT : List Nat := [143, 190, 90, 218, 196, 30, 51, 222]
def RAYDIUM_CPMM_SWAP_BASE_OUTPUT : List Nat := [55, 217, 98, 86, 163, 74, 180, 173]
def PUMP_BUY_INSTRUCTION : Nat := 0x66
def PUMP_SELL_INSTRUCTION : Nat := 0x33

inductive DexType where
  | raydiumAmmV4 | raydiumCPMM | raydiumCLMM | pumpFun | unknown
deriving DecidableEq, Repr

inductive TradeDirection where
  | buy | sell
deriving DecidableEq, Repr

structure TokenInfo where
  mint : String
  symbol : Option String
  decimals : Nat
deriving DecidableEq, Repr

/-- `TradeDetails` from `types/mod.rs`; `price : f64` is modelled as an exact
rational, `timestamp` (wall clock) as `0` and therefore omitted. -/
structure TradeDetails where
  signature : String
  wallet : String
  dex_type : DexType
  trade_direction : TradeDirection
  token_in : TokenInfo
  token_out : TokenInfo
  amount_in : Nat
  amount_out : Nat
  price : Rat
  pool_address : String
  gas_fee : Nat
  program_id : String
deriving DecidableEq, Repr

structure ExecutedTrade where
  original_signature : String
  copy_signature : String
  trade_direction : TradeDirection
  amount_in : Nat
  amount_out : Nat
  price : Rat
  gas_fee : Nat
  success : Bool
  error_message : Option String
deriving DecidableEq, Repr

/-- `TradeExecutionConfig`; the `f64` fields are modelled as rationals. -/
structure TradeExecutionConfig where
  max_position_size : Rat
  slippage_tolerance : Rat
  gas_price_multiplier : Rat
  min_trade_amount : Rat
  max_trade_amount : Rat
  enabled : Bool
deriving DecidableEq, Repr

/- ===== src/fsdownload/src/pool_loader.rs ===== -/

structure RaydiumAmmPool where
  id : String
  program_id : Option String
deriving DecidableEq, Repr

structure RaydiumCpmmPool where
  id : String
  program_id : Option String
deriving DecidableEq, Repr

structure PumpPool where
  mint : String
  program_id : Option String
deriving DecidableEq, Repr

/-- The pool registry; `PoolLoader::load` reads it from JSON snapshot files,
so it is passed as an explicit argument to the decoders. -/
structure PoolLoader where
  raydium_amm : List RaydiumAmmPool
  raydium_cpmm : List RaydiumCpmmPool
  pump : List PumpPool
deriving Repr

def PoolLoader.find_amm_by_pool (l : PoolLoader) (pool_id : String) : Option RaydiumAmmPool :=
  l.raydium_amm.find? (fun p => p.id == pool_id)

def PoolLoader.find_cpmm_by_pool (l : PoolLoader) (pool_id : String) : Option RaydiumCpmmPool :=
  l.raydium_cpmm.find? (fun p => p.id == pool_id)

def PoolLoader.find_pump_by_mint (l : PoolLoader) (mint : String) : Option PumpPool :=
  l.pump.find? (fun p => p.mint == mint)

/-- The registry obtained when all three snapshot files are missing. -/
def emptyLoader : PoolLoader := ⟨[], [], []⟩

/- ===== token-balance rows =====
The monitor projects each pre/post token balance into a JSON object with
fields `accountIndex`, `mint`, `owner`, `uiTokenAmount.amount` (string),
`uiTokenAmount.decimals`. The decoders read these back with
`get(..).and_then(..)` chains; a missing field or failed parse yields `None`
and is then defaulted. `amount` models the `amount` string parsed as `u64`
(`None` when the field is absent or unparsable). -/
structure TokenBalanceRow where
  accountIndex : Option Nat
  mint : Option String
  owner : Option String
  amount : Option Nat
  decimals : Option Nat
deriving DecidableEq, Repr

/- ===== src/fsdownload/src/parser/mod.rs ===== -/

/-- `TransactionParser::identify_dex_from_accounts`. -/
def identify_dex_from_accounts : List String → DexType
  | [] => DexType.unknown
  | account :: rest =>
    if account == RAYDIUM_AMM_V4 then DexType.raydiumAmmV4
    else if account == PUMP_FUN_PROGRAM then DexType.pumpFun
    else if account == RAYDIUM_CPMM then DexType.raydiumCPMM
    else if account == RAYDIUM_CLMM then DexType.raydiumCLMM
    else identify_dex_from_accounts rest

/-- First balance row whose `mint` field is the given mint; returns its
parsed `amount` (0 on parse failure), 0 when no row matches.  This is one
half of `TransactionParser::calculate_token_balance_change`. -/
def firstAmountForMint : List TokenBalanceRow → String → Nat
  | [], _ => 0
  | r :: rs, mint =>
    match r.mint with
    | some m => if m == mint then r.amount.getD 0 else firstAmountForMint rs mint
    | none => firstAmountForMint rs mint

/-- `TransactionParser::calculate_token_balance_change`. -/
def calculate_token_balance_change (pre post : List TokenBalanceRow) (mint : String) :
    Nat × Nat :=
  (firstAmountForMint pre mint, firstAmountForMint post mint)

/- ===== src/fsdownload/src/parser/raydium.rs ===== -/

/-- `Pubkey::from_str` (solana-sdk); base58 validation is not re-modelled,
all concrete inputs use well-formed keys. -/
def pubkeyFromStr (s : String) : PRes String := Except.ok s

def USDT_MINT : String := "Es9vMFrzaCERmJfrF4H2FYD4KCoNkY11McCe8BenwNYB"

/-- `raydium::get_token_symbol`. -/
def raydiumGetTokenSymbol (mint : String) : Option String :=
  if mint == USDC_MINT then some "USDC"
  else if mint == USDT_MINT then some "USDT"
  else none

/-- `raydium::get_token_decimals`. -/
def raydiumGetTokenDecimals (mint : String) : Nat :=
  if mint == USDC_MINT then 6
  else if mint == USDT_MINT then 6
  else 9

/-- `raydium::parse_swap_instruction_data`: `[0]` tag, `[1..9]` `amount_in`
LE, `[9..17]` `min_amount_out` LE. -/
def parse_swap_instruction_data (data : List Nat) : PRes (Nat × Nat) :=
  if data.length < 17 then Except.error (Fault.failure "instruction data too short")
  else Except.ok (leU64 ((data.drop 1).take 8), leU64 ((data.drop 9).take 8))

/-- `raydium::find_mint_for_account`: returns the mint of the first row that
has an `accountIndex` and a `mint` field, ignoring its `_account` argument;
falls back to the wrapped-native mint. -/
def find_mint_for_account : List TokenBalanceRow → String → String
  | [], _ => WSOL_MINT
  | r :: rs, acct =>
    match r.accountIndex, r.mint with
    | some _, some m => m
    | _, _ => find_mint_for_account rs acct

/-- The loop in `parse_raydium_amm_v4_swap` that locates the user's
destination token account: first pre row owned by the user whose mint is not
wrapped-native and whose `accountIndex` is in range. -/
def findUserDestAccount (rows : List TokenBalanceRow) (account_keys : List String)
    (user_wallet : String) : Option String :=
  match rows with
  | [] => none
  | r :: rs =>
    let owner := r.owner.getD ""
    let mint := r.mint.getD ""
    if owner == user_wallet && mint != WSOL_MINT then
      match r.accountIndex with
      | some ai =>
        if ai < account_keys.length then some (account_keys.getD ai "")
        else findUserDestAccount rs account_keys user_wallet
      | none => findUserDestAccount rs account_keys user_wallet
    else findUserDestAccount rs account_keys user_wallet

/-- `raydium::calculate_price`; `f64` is modelled as exact rationals (a zero
denominator yields `0` where `f64` would give an infinity; no claim inspects
the price value). -/
def raydium_calculate_price (amount_in amount_out : Nat)
    (token_in token_out : TokenInfo) (direction : TradeDirection) : Rat :=
  let in_amount_decimal : Rat := (amount_in : Rat) / (10 ^ token_in.decimals : Nat)
  let out_amount_decimal : Rat := (amount_out : Rat) / (10 ^ token_out.decimals : Nat)
  match direction with
  | TradeDirection.buy => in_amount_decimal / out_amount_decimal
  | TradeDirection.sell => out_amount_decimal / in_amount_decimal

/-- `raydium::calculate_gas_fee`: saturating user-account lamport delta. -/
def raydium_calculate_gas_fee (pre_balances post_balances : List Nat)
    (user_index : Nat) : Nat :=
  if user_index < pre_balances.length ∧ user_index < post_balances.length then
    pre_balances.getD user_index 0 - post_balances.getD user_index 0
  else 0

/-- `raydium::analyze_token_changes`.  Both mint lookups go through
`find_mint_for_account` on the *pre* rows (as in the source), and the
realized output amount is the saturating post−pre delta of the destination
mint. -/
def analyze_token_changes (pre_token_balances post_token_balances : List TokenBalanceRow)
    (user_source_account user_dest_account : String) (_amount_in : Nat) :
    PRes (TradeDirection × TokenInfo × TokenInfo × Nat) := do
  let source_mint := find_mint_for_account pre_token_balances user_source_account
  let dest_mint := find_mint_for_account pre_token_balances user_dest_account
  let (_, dest_post) := calculate_token_balance_change pre_token_balances post_token_balances dest_mint
  let (dest_pre, _) := calculate_token_balance_change pre_token_balances post_token_balances dest_mint
  let actual_amount_out := dest_post - dest_pre
  if source_mint == WSOL_MINT then
    let m1 ← pubkeyFromStr source_mint
    let m2 ← pubkeyFromStr dest_mint
    return (TradeDirection.buy,
      { mint := m1, symbol := some "SOL", decimals := 9 },
      { mint := m2, symbol := raydiumGetTokenSymbol dest_mint,
        decimals := raydiumGetTokenDecimals dest_mint },
      actual_amount_out)
  else
    let m1 ← pubkeyFromStr source_mint
    let m2 ← pubkeyFromStr dest_mint
    return (TradeDirection.sell,
      { mint := m1, symbol := raydiumGetTokenSymbol source_mint,
        decimals := raydiumGetTokenDecimals source_mint },
      { mint := m2, symbol := some "SOL", decimals := 9 },
      actual_amount_out)

/-- `raydium::parse_raydium_amm_v4_swap`. -/
def parse_raydium_amm_v4_swap (loader : PoolLoader) (signature : String)
    (account_keys : List String) (instruction_data : List Nat)
    (pre_balances post_balances : List Nat)
    (pre_token_balances post_token_balances : List TokenBalanceRow) :
    PRes (Option TradeDetails) := do
  if instruction_data.isEmpty || instruction_data.headD 0 != RAYDIUM_AMM_SWAP_INSTRUCTION then
    return none
  let res ← parse_swap_instruction_data instruction_data
  let amount_in := res.1
  let user_wallet ← idxPanic account_keys 0
  let _pool_amm ← idxPanic account_keys 1
  let _pool_coin_account ← idxPanic account_keys 5
  let _pool_pc_account ← idxPanic account_keys 6
  let user_dest_account ←
    match findUserDestAccount pre_token_balances account_keys user_wallet with
    | some a => Except.ok a
    | none => Except.error (Fault.failure "no destination token account found")
  let ana ← analyze_token_changes pre_token_balances post_token_balances
      user_wallet user_dest_account amount_in
  let trade_direction := ana.1
  let token_in_info := ana.2.1
  let token_out_info := ana.2.2.1
  let actual_amount_out := ana.2.2.2
  let price := raydium_calculate_price amount_in actual_amount_out
      token_in_info token_out_info trade_direction
  let gas_fee := raydium_calculate_gas_fee pre_balances post_balances 0
  let pool_address ← idxPanic account_keys 1
  let program_id := ((loader.find_amm_by_pool pool_address).bind
      (fun p => p.program_id)).getD RAYDIUM_AMM_V4
  let wallet ← pubkeyFromStr user_wallet
  let pool ← pubkeyFromStr pool_address
  let prog ← pubkeyFromStr program_id
  return some {
    signature := signature
    wallet := wallet
    dex_type := DexType.raydiumAmmV4
    trade_direction := trade_direction
    token_in := token_in_info
    token_out := token_out_info
    amount_in := amount_in
    amount_out := actual_amount_out
    price := price
    pool_address := pool
    gas_fee := gas_fee
    program_id := prog }

/- ===== src/fsdownload/src/parser/pump.rs ===== -/

/-- `pump::parse_pump_instruction_data`: `[0]` tag, `[1..9]` `amount` LE,
`[9..17]` `max_sol_cost` LE. -/
def parse_pump_instruction_data (data : List Nat) : PRes (Nat × Nat) :=
  if data.length < 17 then Except.error (Fault.failure "pump instruction data too short")
  else Except.ok (leU64 ((data.drop 1).take 8), leU64 ((data.drop 9).take 8))

/-- Suffix of `s` after the first occurrence of `pat`; `none` when `pat`
does not occur (`str::find` + slice). -/
def afterFirstOcc (s pat : String) : Option String :=
  match s.splitOn pat with
  | [] => none
  | [_] => none
  | _ :: rest => some (String.intercalate pat rest)

/-- `pump::extract_token_symbol_from_logs`: for the first log containing
`"symbol:"` whose suffix contains a space, the trimmed text before that
space; continues scanning otherwise. -/
def extract_token_symbol_from_logs : List String → String → Option String
  | [], _ => none
  | log :: rest, mint =>
    match afterFirstOcc log "symbol:" with
    | some part =>
      match part.splitOn " " with
      | [] => extract_token_symbol_from_logs rest mint
      | [_] => extract_token_symbol_from_logs rest mint
      | hd :: _ :: _ => some hd.trim
    | none => extract_token_symbol_from_logs rest mint

/-- State of the owner-filtered balance-delta scan shared by the pump and
CPMM analyzers: the mints with the largest negative (`in`) and largest
positive (`out`) delta among rows owned by the user, with magnitudes. -/
structure DeltaScan where
  max_in_token : Option String
  max_out_token : Option String
  max_in_amount : Nat
  max_out_amount : Nat
  max_in_decimals : Nat
  max_out_decimals : Nat
deriving DecidableEq, Repr

/-- One step of the loop body in `pump::analyze_pump_trade` over a zipped
(pre, post) row pair. -/
def pumpScanStep (user : String) (st : DeltaScan) (pp : TokenBalanceRow × TokenBalanceRow) :
    DeltaScan :=
  let mint := pp.1.mint.getD ""
  let owner := pp.1.owner.getD ""
  let decimals := pp.1.decimals.getD 6
  if owner == user then
    let pre_amt := pp.1.amount.getD 0
    let post_amt := pp.2.amount.getD 0
    if pre_amt > post_amt then
      let diff := pre_amt - post_amt
      if diff > st.max_in_amount then
        { st with max_in_token := some mint, max_in_amount := diff,
                  max_in_decimals := decimals }
      else st
    else if post_amt > pre_amt then
      let diff := post_amt - pre_amt
      if diff > st.max_out_amount then
        { st with max_out_token := some mint, max_out_amount := diff,
                  max_out_decimals := decimals }
      else st
    else st
  else st

def pumpScan (user : String) (pre post : List TokenBalanceRow) : DeltaScan :=
  (pre.zip post).foldl (pumpScanStep user) ⟨none, none, 0, 0, 6, 6⟩

/-- `pump::analyze_pump_trade`.  Returns
`(amount_in, amount_out, token_in_mint, token_out_mint, decimals_in,
decimals_out, trade_direction)` exactly as the source's 7-tuple.  The
source's SOL-main-account block (lines 217–231) computes a value that is
never used and is omitted. -/
def analyze_pump_trade (pre_token_balances post_token_balances : List TokenBalanceRow)
    (account_keys : List String) (mint_address : String) :
    PRes (Nat × Nat × String × String × Nat × Nat × TradeDirection) := do
  let user_address ← idxPanic account_keys 6
  let st := pumpScan user_address pre_token_balances post_token_balances
  let trade_direction :=
    match st.max_in_token with
    | some t => if t == WSOL_MINT then TradeDirection.buy else TradeDirection.sell
    | none => TradeDirection.sell
  return (st.max_in_amount, st.max_out_amount,
    st.max_in_token.getD WSOL_MINT,
    st.max_out_token.getD mint_address,
    st.max_in_decimals, st.max_out_decimals, trade_direction)

/-- `pump::calculate_pump_price`: errors when the token amount is zero
(`token_decimal == 0.0`, which for amounts below 2^64 divided by 10^6 holds
exactly when the integer amount is zero). -/
def calculate_pump_price (sol_amount token_amount : Nat)
    (_direction : TradeDirection) : PRes Rat :=
  let sol_decimal : Rat := (sol_amount : Rat) / (10 ^ 9 : Nat)
  let token_decimal : Rat := (token_amount : Rat) / (10 ^ 6 : Nat)
  if token_decimal = 0 then Except.error (Fault.failure "token amount is zero")
  else Except.ok (sol_decimal / token_decimal)

/-- `pump::calculate_gas_fee`: the constant base network fee whenever the
user index is in range of both balance arrays. -/
def pump_calculate_gas_fee (pre_balances post_balances : List Nat)
    (user_index : Nat) : Nat :=
  if user_index < pre_balances.length ∧ user_index < post_balances.length then 5000
  else 0

/-- `pump::parse_pump_trade`. -/
def parse_pump_trade (loader : PoolLoader) (signature : String)
    (account_keys : List String) (instruction_data : List Nat)
    (pre_balances post_balances : List Nat)
    (pre_token_balances post_token_balances : List TokenBalanceRow)
    (logs : List String) : PRes (Option TradeDetails) := do
  if instruction_data.isEmpty then return none
  let instruction_type := instruction_data.headD 0
  let dir0 : Option TradeDirection :=
    if instruction_type == PUMP_BUY_INSTRUCTION then some TradeDirection.buy
    else if instruction_type == PUMP_SELL_INSTRUCTION then some TradeDirection.sell
    else none
  match dir0 with
  | none => return none
  | some _trade_direction0 =>
    let _parsed ← parse_pump_instruction_data instruction_data
    let mint_address ← idxPanic account_keys 2
    let bonding_curve ← idxPanic account_keys 3
    let user_address ← idxPanic account_keys 6
    let user_wallet ← pubkeyFromStr user_address
    let ana ← analyze_pump_trade pre_token_balances post_token_balances
        account_keys mint_address
    let actual_sol_amount := ana.1
    let actual_token_amount := ana.2.1
    let token_in_mint := ana.2.2.1
    let token_out_mint := ana.2.2.2.1
    let decimals_in := ana.2.2.2.2.1
    let decimals_out := ana.2.2.2.2.2.1
    let trade_direction := ana.2.2.2.2.2.2
    let (token_in, token_out, amount_in, amount_out) ←
      match trade_direction with
      | TradeDirection.buy => do
        let w ← pubkeyFromStr WSOL_MINT
        let m ← pubkeyFromStr token_in_mint
        Except.ok (({ mint := w, symbol := some "SOL", decimals := 9 } : TokenInfo),
          ({ mint := m,
             symbol := extract_token_symbol_from_logs logs token_in_mint,
             decimals := decimals_in } : TokenInfo),
          actual_sol_amount, actual_token_amount)
      | TradeDirection.sell => do
        let m ← pubkeyFromStr token_out_mint
        let w ← pubkeyFromStr WSOL_MINT
        Except.ok (
          ({ mint := m,
             symbol := extract_token_symbol_from_logs logs token_out_mint,
             decimals := decimals_out } : TokenInfo),
          ({ mint := w, symbol := some "SOL", decimals := 9 } : TokenInfo),
          actual_token_amount, actual_sol_amount)
    let price ← calculate_pump_price actual_sol_amount actual_token_amount trade_direction
    let user_index := (account_keys.findIdx? (fun k => k == user_address)).getD 0
    let gas_fee := pump_calculate_gas_fee pre_balances post_balances user_index
    let program_id := ((loader.find_pump_by_mint mint_address).bind
        (fun p => p.program_id)).getD PUMP_FUN_PROGRAM
    let pool ← pubkeyFromStr bonding_curve
    let prog ← pubkeyFromStr program_id
    return some {
      signature := signature
      wallet := user_wallet
      dex_type := DexType.pumpFun
      trade_direction := trade_direction
      token_in := token_in
      token_out := token_out
      amount_in := amount_in
      amount_out := amount_out
      price := price
      pool_address := pool
      gas_fee := gas_fee
      program_id := prog }

/- ===== src/fsdownload/src/parser/raydium_cpmm.rs ===== -/

structure SwapInfo where
  input_mint : String
  input_amount : Nat
  output_mint : String
  output_amount : Nat
deriving DecidableEq, Repr

/-- `raydium_cpmm::parse_swap_info_from_logs`: the source's loop only emits
debug logging and never assigns any of the four bindings, so every call
returns the defaulted record. -/
def parse_swap_info_from_logs (_logs : List String) : SwapInfo :=
  { input_mint := "", input_amount := 0, output_mint := "", output_amount := 0 }

def SYSTEM_PROGRAM : String := "11111111111111111111111111111111"
def TOKEN_PROGRAM : String := "TokenkegQfeZyiNwAJbNbGKPFXCWuBvf9Ss623VQ5DA"

/-- The skip test of `raydium_cpmm::find_pool_account_index`. -/
def cpmmSkipAccount (account : String) : Bool :=
  account == RAYDIUM_CPMM || account == TOKEN_PROGRAM || account == SYSTEM_PROGRAM ||
  containsSub account "oracle" || containsSub account "authority"

def findPoolAccountIndexAux : List String → Nat → Nat
  | [], _ => 1
  | k :: rest, i =>
    if cpmmSkipAccount k then findPoolAccountIndexAux rest (i + 1)
    else if 1 ≤ i ∧ i ≤ 5 then i
    else findPoolAccountIndexAux rest (i + 1)

/-- `raydium_cpmm::find_pool_account_index`: first non-skipped account at an
index in `1..=5`, defaulting to index 1. -/
def find_pool_account_index (account_keys : List String) : Nat :=
  findPoolAccountIndexAux account_keys 0

def TARGET_WALLET : String := "CuwxHwz42cNivJqWGBk6HcVvfGq47868Mo6zi4u6z9vC"

/-- `raydium_cpmm::find_user_wallet`: the hard-coded target wallet when
present, else the first account that does not look like a program. -/
def find_user_wallet (account_keys : List String) : PRes String :=
  match account_keys.find? (fun a => a == TARGET_WALLET) with
  | some a => pubkeyFromStr a
  | none =>
    match account_keys.find? (fun a =>
        !containsSub a "Program" && !containsSub a "oracle" &&
        !containsSub a "authority" && a != SYSTEM_PROGRAM) with
    | some a => pubkeyFromStr a
    | none => Except.error (Fault.failure "user wallet not found")

/-- The WSOL-account scan of `parse_raydium_cpmm_swap` (first zipped row pair
whose pre mint is wrapped-native and owner is the user): pre/post amounts. -/
def cpmmFindWsol : List (TokenBalanceRow × TokenBalanceRow) → String → Option (Nat × Nat)
  | [], _ => none
  | pp :: rest, user =>
    if pp.1.mint.getD "" == WSOL_MINT && pp.1.owner.getD "" == user then
      some (pp.1.amount.getD 0, pp.2.amount.getD 0)
    else cpmmFindWsol rest user

/-- One step of the owner-filtered delta scan in `parse_raydium_cpmm_swap`
(identical to the pump scan but without decimals tracking; the decimals
fields of the state are unused here). -/
def cpmmScanStep (user : String) (st : DeltaScan) (pp : TokenBalanceRow × TokenBalanceRow) :
    DeltaScan :=
  let mint := pp.1.mint.getD ""
  let owner := pp.1.owner.getD ""
  if owner == user then
    let pre_amt := pp.1.amount.getD 0
    let post_amt := pp.2.amount.getD 0
    if pre_amt > post_amt then
      let diff := pre_amt - post_amt
      if diff > st.max_in_amount then
        { st with max_in_token := some mint, max_in_amount := diff }
      else st
    else if post_amt > pre_amt then
      let diff := post_amt - pre_amt
      if diff > st.max_out_amount then
        { st with max_out_token := some mint, max_out_amount := diff }
      else st
    else st
  else st

def cpmmScan (user : String) (pre post : List TokenBalanceRow) : DeltaScan :=
  (pre.zip post).foldl (cpmmScanStep user) ⟨none, none, 0, 0, 6, 6⟩

/-- `raydium_cpmm::get_token_symbol`. -/
def cpmm_get_token_symbol (mint : String) : Option String :=
  if mint == WSOL_MINT then some "SOL"
  else if mint == USDC_MINT then some "USDC"
  else if mint == USDT_MINT then some "USDT"
  else none

/-- `raydium_cpmm::get_token_decimals` (default 6). -/
def cpmm_get_token_decimals (mint : String) : Nat :=
  if mint == WSOL_MINT then 9
  else if mint == USDC_MINT then 6
  else if mint == USDT_MINT then 6
  else 6

/-- `raydium_cpmm::calculate_price`: errors when the output amount scaled by
its decimals is zero (for amounts below 2^64 and decimals in {6, 9}, exactly
when the integer output amount is zero). -/
def cpmm_calculate_price (amount_in amount_out : Nat)
    (token_in token_out : TokenInfo) (direction : TradeDirection) : PRes Rat :=
  let in_amount_decimal : Rat := (amount_in : Rat) / (10 ^ token_in.decimals : Nat)
  let out_amount_decimal : Rat := (amount_out : Rat) / (10 ^ token_out.decimals : Nat)
  if out_amount_decimal = 0 then Except.error (Fault.failure "output amount is zero")
  else
    match direction with
    | TradeDirection.buy => Except.ok (in_amount_decimal / out_amount_decimal)
    | TradeDirection.sell => Except.ok (out_amount_decimal / in_amount_decimal)

def U64LIMIT : Nat := 2 ^ 64

/-- `raydium_cpmm::calculate_gas_fee`: base fee of 5000 plus the positive
post−pre delta of every account whose key contains a tip marker; the
unchecked `u64` accumulation wraps modulo `2^64`. -/
def cpmm_calculate_gas_fee (pre_balances post_balances : List Nat)
    (account_keys : List String) : Nat :=
  account_keys.enum.foldl (fun total ia =>
    if containsSub ia.2 "0slot" || containsSub ia.2 "tip" then
      if ia.1 < pre_balances.length ∧ ia.1 < post_balances.length then
        let tip := post_balances.getD ia.1 0 - pre_balances.getD ia.1 0
        if tip > 0 then (total + tip) % U64LIMIT else total
      else total
    else total) 5000

/-- `raydium_cpmm::parse_raydium_cpmm_swap`. -/
def parse_raydium_cpmm_swap (loader : PoolLoader) (signature : String)
    (account_keys : List String) (instruction_data : List Nat)
    (pre_balances post_balances : List Nat)
    (pre_token_balances post_token_balances : List TokenBalanceRow)
    (logs : List String) : PRes (Option TradeDetails) := do
  if instruction_data.length < 8 then return none
  let discriminator := instruction_data.take 8
  let is_swap_base_input := discriminator == RAYDIUM_CPMM_SWAP_BASE_INPUT
  let is_swap_base_output := discriminator == RAYDIUM_CPMM_SWAP_BASE_OUTPUT
  if !is_swap_base_input && !is_swap_base_output then return none
  let _swap_info := parse_swap_info_from_logs logs
  let pool_account_index := find_pool_account_index account_keys
  let pool_address ← idxPanic account_keys pool_account_index
  let program_id := ((loader.find_cpmm_by_pool pool_address).bind
      (fun p => p.program_id)).getD RAYDIUM_CPMM
  let user_wallet ← find_user_wallet account_keys
  let wsolInfo := cpmmFindWsol (pre_token_balances.zip post_token_balances) user_wallet
  let found_wsol := wsolInfo.isSome
  let wsol_pre := (wsolInfo.map Prod.fst).getD 0
  let wsol_post := (wsolInfo.map Prod.snd).getD 0
  let sol_change : Nat :=
    if found_wsol then 0
    else
      match account_keys.findIdx? (fun k => k == user_wallet) with
      | some idx =>
        if idx < pre_balances.length ∧ idx < post_balances.length then
          if pre_balances.getD idx 0 > post_balances.getD idx 0 then
            pre_balances.getD idx 0 - post_balances.getD idx 0
          else post_balances.getD idx 0 - pre_balances.getD idx 0
        else 0
      | none => 0
  let _wsol_change :=
    if found_wsol then
      if wsol_pre > wsol_post then wsol_pre - wsol_post else wsol_post - wsol_pre
    else sol_change
  -- the direction derived from wsol_pre/wsol_post in the source is shadowed
  -- by the rebinding below and never observable
  let st := cpmmScan user_wallet pre_token_balances post_token_balances
  let trade_direction :=
    match st.max_in_token with
    | some t => if t == WSOL_MINT then TradeDirection.buy else TradeDirection.sell
    | none => TradeDirection.sell
  let token_in_mint := st.max_in_token.getD WSOL_MINT
  let token_out_mint := st.max_out_token.getD WSOL_MINT
  let amount_in := st.max_in_amount
  let amount_out := st.max_out_amount
  let tim ← pubkeyFromStr token_in_mint
  let tom ← pubkeyFromStr token_out_mint
  let token_in : TokenInfo :=
    { mint := tim, symbol := cpmm_get_token_symbol token_in_mint,
      decimals := cpmm_get_token_decimals token_in_mint }
  let token_out : TokenInfo :=
    { mint := tom, symbol := cpmm_get_token_symbol token_out_mint,
      decimals := cpmm_get_token_decimals token_out_mint }
  let price ← cpmm_calculate_price amount_in amount_out token_in token_out trade_direction
  let gas_fee := cpmm_calculate_gas_fee pre_balances post_balances account_keys
  let pool ← pubkeyFromStr pool_address
  let prog ← pubkeyFromStr program_id
  return some {
    signature := signature
    wallet := user_wallet
    dex_type := DexType.raydiumCPMM
    trade_direction := trade_direction
    token_in := token_in
    token_out := token_out
    amount_in := amount_in
    amount_out := amount_out
    price := price
    pool_address := pool
    gas_fee := gas_fee
    program_id := prog }

/-- `TransactionParser::parse_transaction_data`: route by the DEX identified
from the account keys; CLMM is routed to the AMM_V4 decoder as in the
source. -/
def parse_transaction_data (loader : PoolLoader) (signature : String)
    (account_keys : List String) (instruction_data : List Nat)
    (pre_balances post_balances : List Nat)
    (pre_token_balances post_token_balances : List TokenBalanceRow)
    (logs : List String) : PRes (Option TradeDetails) :=
  match identify_dex_from_accounts account_keys with
  | DexType.raydiumAmmV4 =>
    parse_raydium_amm_v4_swap loader signature account_keys instruction_data
      pre_balances post_balances pre_token_balances post_token_balances
  | DexType.pumpFun =>
    parse_pump_trade loader signature account_keys instruction_data
      pre_balances post_balances pre_token_balances post_token_balances logs
  | DexType.raydiumCPMM =>
    parse_raydium_cpmm_swap loader signature account_keys instruction_data
      pre_balances post_balances pre_token_balances post_token_balances logs
  | DexType.raydiumCLMM =>
    parse_raydium_amm_v4_swap loader signature account_keys instruction_data
      pre_balances post_balances pre_token_balances post_token_balances
  | DexType.unknown => Except.ok none

/- ===== src/fsdownload/src/trade_executor.rs ===== -/

structure AccountMeta where
  pubkey : String
  is_signer : Bool
  is_writable : Bool
deriving DecidableEq, Repr

/-- `AccountMeta::new` (writable). -/
def AccountMeta.wr (pubkey : String) (s : Bool) : AccountMeta :=
  { pubkey := pubkey, is_signer := s, is_writable := true }

/-- `AccountMeta::new_readonly`. -/
def AccountMeta.ro (pubkey : String) (s : Bool) : AccountMeta :=
  { pubkey := pubkey, is_signer := s, is_writable := false }

structure Instruction where
  program_id : String
  accounts : List AccountMeta
  data : List Nat
deriving DecidableEq, Repr

structure RaydiumCpmmSwapAccounts where
  payer : String
  authority : String
  amm_config : String
  pool_state : String
  user_input_ata : String
  user_output_ata : String
  input_vault : String
  output_vault : String
  input_token_program : String
  output_token_program : String
  input_mint : String
  output_mint : String
  observation_state : String
deriving DecidableEq, Repr

structure PumpFunAccounts where
  fee_recipient : String
  mint : String
  bonding_curve : String
  associated_bonding_curve : String
  event_authority : String
deriving DecidableEq, Repr

/-- `u64::to_le_bytes`. -/
def u64ToLe (n : Nat) : List Nat :=
  (List.range 8).map (fun i => n / 256 ^ i % 256)

/-- `TradeExecutor::create_raydium_cpmm_swap_instructions_v2_static`:
16 zero data bytes; 13 fixed metas with only the payer as signer; every
extra account appended read-only non-signer. -/
def create_raydium_cpmm_swap_instructions_v2_static (trade : TradeDetails)
    (accounts : RaydiumCpmmSwapAccounts) (extra_accounts : List String)
    (_min_amount_out : Nat) : PRes (List Instruction) :=
  let data : List Nat := List.replicate 16 0
  let metas : List AccountMeta :=
    [AccountMeta.wr accounts.payer true,
     AccountMeta.wr accounts.user_input_ata false,
     AccountMeta.wr accounts.user_output_ata false,
     AccountMeta.wr accounts.pool_state false,
     AccountMeta.ro accounts.authority false,
     AccountMeta.ro accounts.amm_config false,
     AccountMeta.ro accounts.observation_state false,
     AccountMeta.wr accounts.input_vault false,
     AccountMeta.wr accounts.output_vault false,
     AccountMeta.ro accounts.input_token_program false,
     AccountMeta.ro accounts.output_token_program false,
     AccountMeta.ro accounts.input_mint false,
     AccountMeta.ro accounts.output_mint false] ++
    extra_accounts.map (fun pk => AccountMeta.ro pk false)
  Except.ok [{ program_id := trade.program_id, accounts := metas, data := data }]

/-- `spl_associated_token_account::get_associated_token_address`: an external
PDA derivation, modelled as an injective string encoding. -/
def get_associated_token_address (owner mint : String) : String :=
  "ata(" ++ owner ++ "," ++ mint ++ ")"

def ATA_PROGRAM : String := "ATokenGPvbdGVxr1b2hvZbsiqW5xWH25efTNsLJA8knL"
def RENT_SYSVAR : String := "SysvarRent111111111111111111111111111111111"

/-- `spl_associated_token_account::instruction::create_associated_token_account`:
an external crate's instruction builder; only its position in the returned
instruction list matters to the claims, so its metas are not re-modelled. -/
def create_associated_token_account_ix (_funder _owner _mint : String) : Instruction :=
  { program_id := ATA_PROGRAM, accounts := [], data := [] }

/-- `TradeExecutor::create_pump_instructions`. -/
def create_pump_instructions (copy_wallet : String) (trade : TradeDetails)
    (accounts : PumpFunAccounts) (max_sol_cost : Nat) : PRes (List Instruction) :=
  let user_pubkey := copy_wallet
  let token_ata := get_associated_token_address user_pubkey trade.token_in.mint
  let create_ata_ix := create_associated_token_account_ix user_pubkey user_pubkey trade.token_in.mint
  let instruction_type : Nat :=
    match trade.trade_direction with
    | TradeDirection.buy => 0x66
    | TradeDirection.sell => 0x33
  let data : List Nat := instruction_type :: (u64ToLe trade.amount_in ++ u64ToLe max_sol_cost)
  let accounts_vec : List AccountMeta :=
    [AccountMeta.wr user_pubkey true,
     AccountMeta.wr accounts.fee_recipient false,
     AccountMeta.wr accounts.mint false,
     AccountMeta.wr accounts.bonding_curve false,
     AccountMeta.wr accounts.associated_bonding_curve false,
     AccountMeta.wr token_ata false,
     AccountMeta.wr user_pubkey true,
     AccountMeta.ro SYSTEM_PROGRAM false,
     AccountMeta.ro TOKEN_PROGRAM false,
     AccountMeta.ro RENT_SYSVAR false,
     AccountMeta.wr accounts.event_authority false,
     AccountMeta.wr trade.program_id false]
  Except.ok [create_ata_ix,
    { program_id := trade.program_id, accounts := accounts_vec, data := data }]

/-- Rust `expr as u64` on a non-NaN `f64`: truncation toward zero clamped to
the `u64` range. -/
def f64ToU64 (q : Rat) : Nat :=
  if q ≤ 0 then 0 else min (U64LIMIT - 1) (Int.toNat ⌊q⌋)

/-- `trade_forced_amount_in_lamports`. -/
def trade_forced_amount_in_lamports (trade_amount_sol : Rat) : Nat :=
  f64ToU64 (trade_amount_sol * 1000000000)

/-- The repeated `ExecutedTrade` literal used by every early return of
`execute_trade` (empty copy signature, `success: false`, given reason). -/
def skippedTrade (trade : TradeDetails) (msg : String) : ExecutedTrade :=
  { original_signature := trade.signature, copy_signature := "",
    trade_direction := trade.trade_direction, amount_in := trade.amount_in,
    amount_out := trade.amount_out, price := trade.price,
    gas_fee := trade.gas_fee, success := false, error_message := some msg }

/-- View of one account returned by `get_token_accounts_by_owner`: `amount`
is `some` exactly when the `Json → parsed → info → tokenAmount → amount`
chain succeeds and parses as `u64`. -/
structure TokenAcctView where
  amount : Option Nat
deriving DecidableEq, Repr

/-- Oracle for the chain RPC results observed during one `execute_trade`
call; each field is the outcome of one call site (`Except.error` models the
`?`-propagated RPC failure). `wsol_ata_balance` is already collapsed because
the source maps both the RPC error and a parse failure to 0. -/
structure ExecEnv where
  token_accounts : Except String (List TokenAcctView)
  wsol_ata_balance : Nat
  sol_balance : Except String Nat
  wrap_blockhash : Except String Unit
  wrap_send : Except String Unit
  pump_blockhash : Except String Unit
  pump_send : Except String String
deriving Repr

/-- Result of the `execute_trade` model: the returned value and, when the
pump path reached `send_and_confirm_transaction`, the submitted trade and
its assembled instruction list. -/
structure ExecOutcome where
  result : Except String ExecutedTrade
  swap_submission : Option (TradeDetails × List Instruction)
deriving Repr

/-- `TradeExecutor::execute_pump_trade` on the already-clamped trade; the
source rebuilds instructions with zeroed `PumpFunAccounts` and `max_sol_cost
= 0`.  The transaction is submitted in both result branches. -/
def execute_pump_trade (copy_wallet : String) (env : ExecEnv)
    (trade : TradeDetails) : ExecOutcome :=
  match env.pump_blockhash with
  | Except.error e => { result := Except.error e, swap_submission := none }
  | Except.ok _ =>
    let zeroAccts : PumpFunAccounts :=
      { fee_recipient := "", mint := "", bonding_curve := "",
        associated_bonding_curve := "", event_authority := "" }
    match create_pump_instructions copy_wallet trade zeroAccts 0 with
    | Except.error _ => { result := Except.error "instruction build failed", swap_submission := none }
    | Except.ok ixs =>
      match env.pump_send with
      | Except.ok sig =>
        { result := Except.ok
            { original_signature := trade.signature, copy_signature := sig,
              trade_direction := trade.trade_direction, amount_in := trade.amount_in,
              amount_out := trade.amount_out, price := trade.price,
              gas_fee := trade.gas_fee, success := true, error_message := none },
          swap_submission := some (trade, ixs) }
      | Except.error e =>
        { result := Except.ok
            { original_signature := trade.signature, copy_signature := "",
              trade_direction := trade.trade_direction, amount_in := trade.amount_in,
              amount_out := trade.amount_out, price := trade.price,
              gas_fee := trade.gas_fee, success := false, error_message := some e },
          swap_submission := some (trade, ixs) }

/-- Outcome of the enablement and size checks at the top of
`execute_trade`: either an early return, or the effective trade size in
native units together with the `forced` flag. -/
inductive GateOutcome where
  | halt (out : ExecOutcome)
  | proceed (trade_amount_sol : Rat) (forced : Bool)
deriving Repr

/-- The enablement / forced-size / min / max checks of `execute_trade`
(source lines 104–157).  `forced` is set when the configured bounds differ
by less than `1e-9`; the maximum bound is then used as the trade size. -/
def sizeGate (cfg : TradeExecutionConfig) (trade : TradeDetails) : GateOutcome :=
  if !cfg.enabled then
    GateOutcome.halt { result := Except.ok (skippedTrade trade "trading disabled"),
                       swap_submission := none }
  else
    let forced : Bool :=
      decide (|cfg.max_trade_amount - cfg.min_trade_amount| < (1 : Rat) / 1000000000)
    let trade_amount_sol : Rat :=
      if forced then cfg.max_trade_amount else (trade.amount_in : Rat) / 1000000000
    if trade_amount_sol < cfg.min_trade_amount then
      GateOutcome.halt { result := Except.ok (skippedTrade trade "amount below minimum"),
                         swap_submission := none }
    else if trade_amount_sol > cfg.max_trade_amount ∧ forced = false then
      GateOutcome.halt { result := Except.ok (skippedTrade trade "amount above maximum"),
                         swap_submission := none }
    else GateOutcome.proceed trade_amount_sol forced

/-- The sell-side balance check of `execute_trade` (source lines 158–195):
`some` is an early return. -/
def sellGate (env : ExecEnv) (trade : TradeDetails) (trade_amount_sol : Rat) :
    Option ExecOutcome :=
  if trade.trade_direction == TradeDirection.sell then
    match env.token_accounts with
    | Except.error e => some { result := Except.error e, swap_submission := none }
    | Except.ok accts =>
      let total_token_balance := accts.foldl (fun t a =>
        match a.amount with
        | some n => (t + n) % U64LIMIT
        | none => t) 0
      if total_token_balance < trade_forced_amount_in_lamports trade_amount_sol then
        some { result := Except.ok (skippedTrade trade "insufficient token balance for sell"),
               swap_submission := none }
      else none
  else none

/-- The wrapped-native provisioning of `execute_trade` (source lines
196–245): `some` is an early return; a successful wrap submission falls
through. -/
def wsolGate (env : ExecEnv) (trade : TradeDetails) (trade_amount_sol : Rat) :
    Option ExecOutcome :=
  let need_wsol :=
    (trade.trade_direction == TradeDirection.buy && trade.token_in.mint == WSOL_MINT) ||
    (trade.trade_direction == TradeDirection.sell && trade.token_out.mint == WSOL_MINT)
  if need_wsol then
    let wsol_balance := env.wsol_ata_balance
    let required := trade_forced_amount_in_lamports trade_amount_sol
    if wsol_balance < required then
      match env.sol_balance with
      | Except.error e => some { result := Except.error e, swap_submission := none }
      | Except.ok sol_balance =>
        if sol_balance < required then
          some { result := Except.ok (skippedTrade trade "insufficient native balance for wrap"),
                 swap_submission := none }
        else
          match env.wrap_blockhash with
          | Except.error e => some { result := Except.error e, swap_submission := none }
          | Except.ok _ =>
            match env.wrap_send with
            | Except.error e => some { result := Except.error e, swap_submission := none }
            | Except.ok _ => none
    else none
  else none

/-- `TradeExecutor::execute_trade`: the risk gate (enablement, forced /
clamped size, sell-side balance, wrapped-native provisioning) followed by
the per-DEX dispatch.  The stages mirror the source's early returns. -/
def execute_trade (copy_wallet : String) (cfg : TradeExecutionConfig)
    (env : ExecEnv) (trade : TradeDetails) : ExecOutcome :=
  match sizeGate cfg trade with
  | GateOutcome.halt out => out
  | GateOutcome.proceed trade_amount_sol forced =>
    match sellGate env trade trade_amount_sol with
    | some out => out
    | none =>
      match wsolGate env trade trade_amount_sol with
      | some out => out
      | none =>
        let trade_for_exec :=
          if forced then { trade with amount_in := f64ToU64 (trade_amount_sol * 1000000000) }
          else trade
        match trade.dex_type with
        | DexType.raydiumCPMM =>
          { result := Except.ok (skippedTrade trade "CPMM disabled via execute_trade"),
            swap_submission := none }
        | DexType.pumpFun => execute_pump_trade copy_wallet env trade_for_exec
        | _ =>
          { result := Except.ok (skippedTrade trade "unsupported dex type"),
            swap_submission := none }

/- ===== src/fsdownload/src/trade_recorder.rs ===== -/

def directionDebugStr : TradeDirection → String
  | TradeDirection.buy => "Buy"
  | TradeDirection.sell => "Sell"

def dexDebugStr : DexType → String
  | DexType.raydiumAmmV4 => "RaydiumAmmV4"
  | DexType.raydiumCPMM => "RaydiumCPMM"
  | DexType.raydiumCLMM => "RaydiumCLMM"
  | DexType.pumpFun => "PumpFun"
  | DexType.unknown => "Unknown"

/-- `TradeRecord` (one journal line); the wall-clock `timestamp` is
omitted as elsewhere. -/
structure TradeRecord where
  original_signature : String
  copy_signature : Option String
  trade_direction : String
  dex_type : String
  token_in_symbol : Option String
  token_out_symbol : Option String
  amount_in : Nat
  amount_out : Nat
  price : Rat
  gas_fee : Nat
  success : Bool
  error_message : Option String
deriving DecidableEq, Repr

/-- `TradeRecorder::record_trade`: the observed-trade record shape. -/
def record_trade (trade : TradeDetails) : TradeRecord :=
  { original_signature := trade.signature, copy_signature := none,
    trade_direction := directionDebugStr trade.trade_direction,
    dex_type := dexDebugStr trade.dex_type,
    token_in_symbol := trade.token_in.symbol,
    token_out_symbol := trade.token_out.symbol,
    amount_in := trade.amount_in, amount_out := trade.amount_out,
    price := trade.price, gas_fee := trade.gas_fee,
    success := true, error_message := none }

/-- `TradeRecorder::record_execution`: the mirror-execution record shape
(`dex_type` is always the literal `"Unknown"`). This function has no call
site anywhere in the crate. -/
def record_execution (executed_trade : ExecutedTrade) : TradeRecord :=
  { original_signature := executed_trade.original_signature,
    copy_signature := if executed_trade.copy_signature.isEmpty then none
      else some executed_trade.copy_signature,
    trade_direction := directionDebugStr executed_trade.trade_direction,
    dex_type := "Unknown",
    token_in_symbol := none, token_out_symbol := none,
    amount_in := executed_trade.amount_in, amount_out := executed_trade.amount_out,
    price := executed_trade.price, gas_fee := executed_trade.gas_fee,
    success := executed_trade.success,
    error_message := executed_trade.error_message }

/- ===== src/fsdownload/src/grpc_monitor.rs ===== -/

/-- The per-trade dispatch decision of `GrpcMonitor::handle_parsed_trade`. -/
inductive DispatchAction where
  | spawnCpmm (cpmm_accounts : RaydiumCpmmSwapAccounts)
      (extra_accounts : List String) (min_amount_out : Nat)
  | spawnPump (pump_accounts : PumpFunAccounts) (max_sol_cost : Nat)
  | noSpawn
deriving DecidableEq, Repr

/-- `GrpcMonitor::handle_parsed_trade`, dispatch part: which executor task
(if any) is spawned for a decoded trade.  The `Pubkey::from_str(..).unwrap()`
calls cannot fail in the model (see `pubkeyFromStr`). -/
def handle_parsed_trade_action (slippage_tolerance : Rat) (has_executor : Bool)
    (target_wallet : String) (trade : TradeDetails) (account_keys : List String) :
    DispatchAction :=
  if trade.wallet == target_wallet then
    if has_executor then
      match trade.dex_type with
      | DexType.raydiumCPMM =>
        if account_keys.length ≥ 16 then
          DispatchAction.spawnCpmm
            { payer := account_keys.getD 0 "",
              user_input_ata := account_keys.getD 1 "",
              user_output_ata := account_keys.getD 2 "",
              pool_state := account_keys.getD 3 "",
              authority := account_keys.getD 4 "",
              amm_config := account_keys.getD 5 "",
              observation_state := account_keys.getD 6 "",
              input_vault := account_keys.getD 7 "",
              output_vault := account_keys.getD 8 "",
              input_token_program := account_keys.getD 9 "",
              output_token_program := account_keys.getD 10 "",
              input_mint := account_keys.getD 11 "",
              output_mint := account_keys.getD 12 "" }
            (account_keys.drop 13)
            (f64ToU64 ((trade.amount_out : Rat) * (1 - slippage_tolerance)))
        else DispatchAction.noSpawn
      | DexType.pumpFun =>
        if account_keys.length ≥ 11 then
          DispatchAction.spawnPump
            { fee_recipient := account_keys.getD 1 "",
              mint := account_keys.getD 2 "",
              bonding_curve := account_keys.getD 3 "",
              associated_bonding_curve := account_keys.getD 4 "",
              event_authority := account_keys.getD 10 "" }
            trade.amount_in
        else DispatchAction.noSpawn
      | _ => DispatchAction.noSpawn
    else DispatchAction.noSpawn
  else DispatchAction.noSpawn

/-- The journal writes performed while handling one decoded trade.  In the
source, the spawned CPMM task binds the `ExecutedTrade` returned by
`execute_raydium_cpmm_trade_static` to a local that is only logged, the
spawned pump task does the same with `execute_trade`'s result, and
`record_execution` has no call site in the crate; the only recorder call on
this path is `save_trade_for_analysis` → `record_trade`. -/
def handle_parsed_trade_journal (has_recorder : Bool) (trade : TradeDetails) :
    List TradeRecord :=
  if has_recorder then [record_trade trade] else []

/-- One raw instruction of a streamed transaction message. -/
structure RawInstr where
  program_id_index : Nat
  data : List Nat
deriving DecidableEq, Repr

/-- One streamed transaction delivery, after signature base58 encoding and
account-key collection. -/
structure Delivery where
  signature : String
  account_keys : List String
  instructions : List RawInstr
deriving DecidableEq, Repr

/-- The program filter of `process_transaction`. -/
def trackedProgram (p : String) : Bool :=
  p == RAYDIUM_AMM_V4 || p == RAYDIUM_CPMM || p == RAYDIUM_CLMM || p == PUMP_FUN_PROGRAM

/-- The per-instruction loop of `GrpcMonitor::process_transaction`:
skip when `program_id_index` is out of range, filter by program, then check
and insert the dedup key `(signature, instruction_index)` before invoking
the decoder.  Returns the updated dedup set and the ordered list of dedup
keys for which the decoder was invoked; the decoder's result does not touch
the set. -/
def processInstrs (sig : String) (keys : List String) :
    List (Nat × RawInstr) → List (String × Nat) →
    List (String × Nat) × List (String × Nat)
  | [], processed => (processed, [])
  | (idx, instr) :: rest, processed =>
    match keys.get? instr.program_id_index with
    | none => processInstrs sig keys rest processed
    | some program_id =>
      if !trackedProgram program_id then processInstrs sig keys rest processed
      else if (sig, idx) ∈ processed then processInstrs sig keys rest processed
      else
        let processed' := (sig, idx) :: processed
        let out := processInstrs sig keys rest processed'
        (out.1, (sig, idx) :: out.2)

/-- `GrpcMonitor::process_transaction` restricted to its dedup/dispatch
effect. -/
def processTransaction (processed : List (String × Nat)) (d : Delivery) :
    List (String × Nat) × List (String × Nat) :=
  processInstrs d.signature d.account_keys d.instructions.enum processed

/-- A whole session: fold `process_transaction` over the stream deliveries,
collecting every decoder invocation. -/
def runDispatch : List Delivery → List (String × Nat) →
    List (String × Nat) × List (String × Nat)
  | [], processed => (processed, [])
  | d :: ds, processed =>
    let out := processTransaction processed d
    let out' := runDispatch ds out.1
    (out'.1, out.2 ++ out'.2)

/- ===== concrete fixtures used by counterexamples and witnesses ===== -/

/-- Account keys for the AMM_V4 fixtures: user wallet at 0, pool at 1, the
user's destination token account at 2. -/
def ammFixtureKeys : List String :=
  [TARGET_WALLET, "5Q544fKrFoe6tsEbD7S8EmxGTJYAKtTVhAW5Q5pge4j1",
   "DestTok1111111111111111111111111111111111111", "Key3", "Key4", "Key5", "Key6"]

/-- The §8 fixture instruction: tag 9, declared `amount_in` 1_000_000_000,
`min_amount_out` 0. -/
def ammFixtureData : List Nat := 9 :: (u64ToLe 1000000000 ++ u64ToLe 0)

def ammFixturePreRows : List TokenBalanceRow :=
  [{ accountIndex := some 2, mint := some USDC_MINT, owner := some TARGET_WALLET,
     amount := some 0, decimals := some 6 }]

def ammFixturePostRows : List TokenBalanceRow :=
  [{ accountIndex := some 2, mint := some USDC_MINT, owner := some TARGET_WALLET,
     amount := some 25000000, decimals := some 6 }]

/-- Post rows identical to the pre rows: no balance change at all. -/
def ammFixtureNoChangeRows : List TokenBalanceRow := ammFixturePreRows

/-- CPMM fixture: the leader wallet and a pool account. -/
def cpmmFixtureKeys : List String :=
  [TARGET_WALLET, "5Q544fKrFoe6tsEbD7S8EmxGTJYAKtTVhAW5Q5pge4j1"]

/-- CPMM fixture rows: one user-owned non-native account that only
increases (no row with a negative delta). -/
def cpmmFixturePreRows : List TokenBalanceRow :=
  [{ accountIndex := some 1, mint := some USDC_MINT, owner := some TARGET_WALLET,
     amount := some 0, decimals := some 6 }]

def cpmmFixturePostRows : List TokenBalanceRow :=
  [{ accountIndex := some 1, mint := some USDC_MINT, owner := some TARGET_WALLET,
     amount := some 100, decimals := some 6 }]

/-- Bonding-curve sell fixture where the user also holds a wrapped-native
token account that receives the proceeds. -/
def pumpFixtureKeys : List String :=
  ["FeePayer111", "FeeRecip111", USDC_MINT, "Curve1111", "AssocCurve1", "UserTok1",
   TARGET_WALLET]

def pumpFixtureData : List Nat := 0x33 :: (u64ToLe 1000000 ++ u64ToLe 0)

def pumpFixturePreRows : List TokenBalanceRow :=
  [{ accountIndex := some 5, mint := some USDC_MINT, owner := some TARGET_WALLET,
     amount := some 1000000, decimals := some 6 },
   { accountIndex := some 8, mint := some WSOL_MINT, owner := some TARGET_WALLET,
     amount := some 0, decimals := some 9 }]

def pumpFixturePostRows : List TokenBalanceRow :=
  [{ accountIndex := some 5, mint := some USDC_MINT, owner := some TARGET_WALLET,
     amount := some 0, decimals := some 6 },
   { accountIndex := some 8, mint := some WSOL_MINT, owner := some TARGET_WALLET,
     amount := some 500000, decimals := some 9 }]

/-- An environment in which every chain RPC call succeeds and balances are
ample. -/
def okEnv : ExecEnv :=
  { token_accounts := Except.ok [], wsol_ata_balance := 10 ^ 12,
    sol_balance := Except.ok (10 ^ 12), wrap_blockhash := Except.ok (),
    wrap_send := Except.ok (), pump_blockhash := Except.ok (),
    pump_send := Except.ok "mirrorsig" }

/-- Configured bounds that differ by `2^-33 < 1e-9` (both endpoints and
their difference are exactly representable as IEEE doubles, so the rational
model agrees with the `f64` source on this input). -/
def epsCfg : TradeExecutionConfig :=
  { max_position_size := 0, slippage_tolerance := 0, gas_price_multiplier := 0,
    min_trade_amount := 1/8, max_trade_amount := 1/8 + 1/8589934592, enabled := true }

/-- Forced-size configuration of the §8 fixture: `min = max = 0.1`. -/
def forcedCfg : TradeExecutionConfig :=
  { max_position_size := 0, slippage_tolerance := 0, gas_price_multiplier := 0,
    min_trade_amount := 1/10, max_trade_amount := 1/10, enabled := true }

/-- A leader pump-fun buy of 5 native units (5e9 lamports). -/
def leaderPumpTrade : TradeDetails :=
  { signature := "leadsig", wallet := TARGET_WALLET, dex_type := DexType.pumpFun,
    trade_direction := TradeDirection.buy,
    token_in := { mint := USDC_MINT, symbol := none, decimals := 6 },
    token_out := { mint := USDC_MINT, symbol := none, decimals := 6 },
    amount_in := 5000000000, amount_out := 77, price := 0,
    pool_address := "pool", gas_fee := 5000, program_id := PUMP_FUN_PROGRAM }

/-- One streamed delivery holding a single tracked (bonding-curve)
instruction. -/
def dedupDelivery : Delivery :=
  { signature := "dupsig", account_keys := [PUMP_FUN_PROGRAM],
    instructions := [{ program_id_index := 0, data := [1] }] }

/-- Bonding-curve buy fixture: the user's wrapped-native account decreases
by 1e9 and a token account increases by 25e6. -/
def pumpBuyData : List Nat := 0x66 :: (u64ToLe 1000000 ++ u64ToLe 2000000000)

def pumpBuyPreRows : List TokenBalanceRow :=
  [{ accountIndex := some 8, mint := some WSOL_MINT, owner := some TARGET_WALLET,
     amount := some 2000000000, decimals := some 9 },
   { accountIndex := some 5, mint := some USDC_MINT, owner := some TARGET_WALLET,
     amount := some 0, decimals := some 6 }]

def pumpBuyPostRows : List TokenBalanceRow :=
  [{ accountIndex := some 8, mint := some WSOL_MINT, owner := some TARGET_WALLET,
     amount := some 1000000000, decimals := some 9 },
   { accountIndex := some 5, mint := some USDC_MINT, owner := some TARGET_WALLET,
     amount := some 25000000, decimals := some 6 }]

/-- The value carried by a decoder result, `None`/errors collapsed. -/
def okValue : PRes (Option TradeDetails) → Option TradeDetails
  | Except.ok o => o
  | Except.error _ => none

/-- A leader AMM_V4 trade (same shape as the pump one, different DEX). -/
def leaderAmmTrade : TradeDetails :=
  { leaderPumpTrade with dex_type := DexType.raydiumAmmV4 }

/-- A leader CPMM trade (same shape as the pump one, different DEX). -/
def leaderCpmmTrade : TradeDetails :=
  { leaderPumpTrade with dex_type := DexType.raydiumCPMM }

/- ===== helper lemmas ===== -/

/-- `calculate_pump_price` with the rational zero test rewritten to the
integer amount. -/
theorem calculate_pump_price_eq (s t : Nat) (d : TradeDirection) :
    calculate_pump_price s t d =
      if t = 0 then Except.error (Fault.failure "token amount is zero")
      else Except.ok (((s : Rat) / ((10 ^ 9 : Nat) : Rat)) / ((t : Rat) / ((10 ^ 6 : Nat) : Rat))) := by
  unfold calculate_pump_price
  rcases eq_or_ne t 0 with h | h
  · subst h; norm_num
  · rw [if_neg h, if_neg]
    intro hz
    rw [div_eq_zero_iff] at hz
    rcases hz with hz | hz
    · exact h (by exact_mod_cast hz)
    · norm_num at hz

/-- `cpmm_calculate_price` with the rational zero test rewritten to the
integer output amount. -/
theorem cpmm_calculate_price_eq (ai ao : Nat) (tin tout : TokenInfo) (d : TradeDirection) :
    cpmm_calculate_price ai ao tin tout d =
      if ao = 0 then Except.error (Fault.failure "output amount is zero")
      else
        match d with
        | TradeDirection.buy =>
          Except.ok (((ai : Rat) / ((10 ^ tin.decimals : Nat) : Rat)) /
            ((ao : Rat) / ((10 ^ tout.decimals : Nat) : Rat)))
        | TradeDirection.sell =>
          Except.ok (((ao : Rat) / ((10 ^ tout.decimals : Nat) : Rat)) /
            ((ai : Rat) / ((10 ^ tin.decimals : Nat) : Rat))) := by
  unfold cpmm_calculate_price
  rcases eq_or_ne ao 0 with h | h
  · subst h; norm_num
  · rw [if_neg h, if_neg]
    intro hz
    rw [div_eq_zero_iff] at hz
    rcases hz with hz | hz
    · exact h (by exact_mod_cast hz)
    · have : ((10 ^ tout.decimals : Nat) : Rat) ≠ 0 := by
        exact_mod_cast pow_ne_zero tout.decimals (by norm_num)
      exact this hz

/-- Invariant of the owner-filtered delta scans: a recorded mint comes with
a strictly positive magnitude. -/
def ScanPos (st : DeltaScan) : Prop :=
  (st.max_in_token.isSome → 0 < st.max_in_amount) ∧
  (st.max_out_token.isSome → 0 < st.max_out_amount)

theorem pumpScanStep_pos (user : String) (st : DeltaScan)
    (pp : TokenBalanceRow × TokenBalanceRow) (h : ScanPos st) :
    ScanPos (pumpScanStep user st pp) := by
  unfold pumpScanStep
  obtain ⟨h1, h2⟩ := h
  dsimp only
  split_ifs <;> constructor <;> simp_all

theorem cpmmScanStep_pos (user : String) (st : DeltaScan)
    (pp : TokenBalanceRow × TokenBalanceRow) (h : ScanPos st) :
    ScanPos (cpmmScanStep user st pp) := by
  unfold cpmmScanStep
  obtain ⟨h1, h2⟩ := h
  dsimp only
  split_ifs <;> constructor <;> simp_all

theorem foldl_scanPos (step : DeltaScan → (TokenBalanceRow × TokenBalanceRow) → DeltaScan)
    (hstep : ∀ st pp, ScanPos st → ScanPos (step st pp)) :
    ∀ (l : List (TokenBalanceRow × TokenBalanceRow)) (st : DeltaScan),
      ScanPos st → ScanPos (l.foldl step st) := by
  intro l
  induction l with
  | nil => intro st h; exact h
  | cons hd tl ih => intro st h; exact ih (step st hd) (hstep st hd h)

theorem pumpScan_pos (user : String) (pre post : List TokenBalanceRow) :
    ScanPos (pumpScan user pre post) :=
  foldl_scanPos (pumpScanStep user) (pumpScanStep_pos user) (pre.zip post)
    ⟨none, none, 0, 0, 6, 6⟩ (by constructor <;> simp)

theorem cpmmScan_pos (user : String) (pre post : List TokenBalanceRow) :
    ScanPos (cpmmScan user pre post) :=
  foldl_scanPos (cpmmScanStep user) (cpmmScanStep_pos user) (pre.zip post)
    ⟨none, none, 0, 0, 6, 6⟩ (by constructor <;> simp)

theorem except_bind_ok (a : α) (f : α → Except ε β) :
    (Except.ok a >>= f : Except ε β) = f a := rfl

theorem except_bind_error (e : ε) (f : α → Except ε β) :
    ((Except.error e : Except ε α) >>= f) = Except.error e := rfl

theorem except_pure (a : α) : (pure a : Except ε α) = Except.ok a := rfl

/-- The unused account arguments of `find_mint_for_account` are irrelevant. -/
theorem find_mint_for_account_const (rows : List TokenBalanceRow) (a b : String) :
    find_mint_for_account rows a = find_mint_for_account rows b := by
  induction rows with
  | nil => rfl
  | cons r rs ih =>
    unfold find_mint_for_account
    cases r.accountIndex <;> cases r.mint <;> simp [ih]

/-- Closed form of `analyze_token_changes`: it always succeeds, both mints
come from `find_mint_for_account` on the pre rows, and the realized output
is the saturating post−pre delta of the destination mint. -/
theorem analyze_token_changes_eq (pre post : List TokenBalanceRow)
    (src dst : String) (ai : Nat) :
    analyze_token_changes pre post src dst ai =
      (if find_mint_for_account pre src == WSOL_MINT then
        Except.ok (TradeDirection.buy,
          ({ mint := find_mint_for_account pre src, symbol := some "SOL", decimals := 9 } : TokenInfo),
          ({ mint := find_mint_for_account pre dst,
             symbol := raydiumGetTokenSymbol (find_mint_for_account pre dst),
             decimals := raydiumGetTokenDecimals (find_mint_for_account pre dst) } : TokenInfo),
          firstAmountForMint post (find_mint_for_account pre dst) -
            firstAmountForMint pre (find_mint_for_account pre dst))
      else
        Except.ok (TradeDirection.sell,
          ({ mint := find_mint_for_account pre src,
             symbol := raydiumGetTokenSymbol (find_mint_for_account pre src),
             decimals := raydiumGetTokenDecimals (find_mint_for_account pre src) } : TokenInfo),
          ({ mint := find_mint_for_account pre dst, symbol := some "SOL", decimals := 9 } : TokenInfo),
          firstAmountForMint post (find_mint_for_account pre dst) -
            firstAmountForMint pre (find_mint_for_account pre dst))) := rfl

/-- Master inversion for the AMM_V4 decoder: every emitted trade carries the
declared instruction amount as `amount_in`, the saturating destination-mint
delta as `amount_out`, the first-row mint as `token_in.mint` with the
direction decided by comparing it to the wrapped-native mint, and the
user-index-0 lamport delta as `gas_fee`. -/
theorem parse_amm_inversion (loader : PoolLoader) (sig : String)
    (keys : List String) (data : List Nat) (pre post : List Nat)
    (preTB postTB : List TokenBalanceRow) (t : TradeDetails)
    (h : parse_raydium_amm_v4_swap loader sig keys data pre post preTB postTB
      = Except.ok (some t)) :
    t.amount_in = leU64 ((data.drop 1).take 8) ∧
    t.amount_out = firstAmountForMint postTB (find_mint_for_account preTB "") -
      firstAmountForMint preTB (find_mint_for_account preTB "") ∧
    t.token_in.mint = find_mint_for_account preTB "" ∧
    t.trade_direction = (if find_mint_for_account preTB "" == WSOL_MINT
      then TradeDirection.buy else TradeDirection.sell) ∧
    t.gas_fee = raydium_calculate_gas_fee pre post 0 := by
  unfold parse_raydium_amm_v4_swap at h
  split at h
  · simp [except_pure] at h
  · cases hpd : parse_swap_instruction_data data with
    | error e => rw [hpd, except_bind_error] at h; exact absurd h (by simp)
    | ok res =>
      rw [hpd, except_bind_ok] at h
      cases hk0 : idxPanic keys 0 with
      | error e => rw [hk0, except_bind_error] at h; exact absurd h (by simp)
      | ok user_wallet =>
        rw [hk0, except_bind_ok] at h
        cases hk1 : idxPanic keys 1 with
        | error e => rw [hk1, except_bind_error] at h; exact absurd h (by simp)
        | ok pool1 =>
          rw [hk1, except_bind_ok] at h
          cases hk5 : idxPanic keys 5 with
          | error e => rw [hk5, except_bind_error] at h; exact absurd h (by simp)
          | ok k5 =>
            rw [hk5, except_bind_ok] at h
            cases hk6 : idxPanic keys 6 with
            | error e => rw [hk6, except_bind_error] at h; exact absurd h (by simp)
            | ok k6 =>
              rw [hk6, except_bind_ok] at h
              cases hud : findUserDestAccount preTB keys user_wallet with
              | none =>
                rw [hud] at h
                simp [except_pure, except_bind_ok, except_bind_error] at h
              | some uda =>
                rw [hud] at h
                simp only [except_bind_ok] at h
                rw [analyze_token_changes_eq] at h
                have hin : res.1 = leU64 ((data.drop 1).take 8) := by
                  unfold parse_swap_instruction_data at hpd
                  split at hpd
                  · exact absurd hpd (by simp)
                  · simp only [Except.ok.injEq] at hpd
                    rw [← hpd]
                rw [find_mint_for_account_const preTB user_wallet "",
                    find_mint_for_account_const preTB uda ""] at h
                split at h <;>
                · simp only [except_bind_ok, pubkeyFromStr, except_pure,
                    Except.ok.injEq, Option.some.injEq] at h
                  subst h
                  simp_all

/-- Closed form of `analyze_pump_trade` in terms of the delta scan. -/
theorem analyze_pump_trade_eq (preTB postTB : List TokenBalanceRow)
    (keys : List String) (mint_address : String) :
    analyze_pump_trade preTB postTB keys mint_address =
      (idxPanic keys 6 >>= fun u =>
        Except.ok ((pumpScan u preTB postTB).max_in_amount,
          (pumpScan u preTB postTB).max_out_amount,
          (pumpScan u preTB postTB).max_in_token.getD WSOL_MINT,
          (pumpScan u preTB postTB).max_out_token.getD mint_address,
          (pumpScan u preTB postTB).max_in_decimals,
          (pumpScan u preTB postTB).max_out_decimals,
          match (pumpScan u preTB postTB).max_in_token with
          | some tk => if tk == WSOL_MINT then TradeDirection.buy else TradeDirection.sell
          | none => TradeDirection.sell)) := rfl

/-- Master inversion for the bonding-curve decoder: direction comes from the
owner-filtered delta scan, a buy always carries the wrapped-native mint as
`token_in.mint` with the in/out magnitudes, a sell swaps the two magnitudes
and uses the *out* mint as `token_in.mint`, the out magnitude is non-zero
(price guard), and `gas_fee` is the constant-or-zero pump fee. -/
theorem parse_pump_inversion (loader : PoolLoader) (sig : String)
    (keys : List String) (data : List Nat) (pre post : List Nat)
    (preTB postTB : List TokenBalanceRow) (logs : List String) (t : TradeDetails)
    (h : parse_pump_trade loader sig keys data pre post preTB postTB logs
      = Except.ok (some t)) :
    ∃ u m2, keys.get? 6 = some u ∧ keys.get? 2 = some m2 ∧
      (pumpScan u preTB postTB).max_out_amount ≠ 0 ∧
      t.trade_direction = (match (pumpScan u preTB postTB).max_in_token with
        | some tk => if tk == WSOL_MINT then TradeDirection.buy else TradeDirection.sell
        | none => TradeDirection.sell) ∧
      (t.trade_direction = TradeDirection.buy →
        t.token_in.mint = WSOL_MINT ∧
        t.amount_in = (pumpScan u preTB postTB).max_in_amount ∧
        t.amount_out = (pumpScan u preTB postTB).max_out_amount) ∧
      (t.trade_direction = TradeDirection.sell →
        t.token_in.mint = (pumpScan u preTB postTB).max_out_token.getD m2 ∧
        t.amount_in = (pumpScan u preTB postTB).max_out_amount ∧
        t.amount_out = (pumpScan u preTB postTB).max_in_amount) ∧
      t.gas_fee = pump_calculate_gas_fee pre post
        ((keys.findIdx? (fun k => k == u)).getD 0) := by
  unfold parse_pump_trade at h
  split at h
  · simp [except_pure] at h
  · simp only [except_pure, except_bind_ok] at h
    split at h
    · simp [except_pure] at h
    · cases hpd : parse_pump_instruction_data data with
      | error e => rw [hpd, except_bind_error] at h; exact absurd h (by simp)
      | ok parsed =>
        rw [hpd, except_bind_ok] at h
        cases hk2 : idxPanic keys 2 with
        | error e => rw [hk2, except_bind_error] at h; exact absurd h (by simp)
        | ok mint_address =>
          rw [hk2, except_bind_ok] at h
          cases hk3 : idxPanic keys 3 with
          | error e => rw [hk3, except_bind_error] at h; exact absurd h (by simp)
          | ok bonding_curve =>
            rw [hk3, except_bind_ok] at h
            cases hk6 : idxPanic keys 6 with
            | error e => rw [hk6, except_bind_error] at h; exact absurd h (by simp)
            | ok user_address =>
              rw [hk6, except_bind_ok] at h
              simp only [pubkeyFromStr, except_bind_ok] at h
              rw [analyze_pump_trade_eq, hk6, except_bind_ok, except_bind_ok] at h
              have hu : keys.get? 6 = some user_address := by
                have := hk6; unfold idxPanic at this
                cases hg : keys.get? 6 <;> rw [hg] at this <;> simp_all
              have hm2 : keys.get? 2 = some mint_address := by
                have := hk2; unfold idxPanic at this
                cases hg : keys.get? 2 <;> rw [hg] at this <;> simp_all
              refine ⟨user_address, mint_address, hu, hm2, ?_⟩
              cases hmax : (pumpScan user_address preTB postTB).max_in_token with
              | none =>
                rw [hmax] at h
                dsimp only [Option.getD] at h
                rw [calculate_pump_price_eq] at h
                split at h
                · rw [except_bind_error] at h; exact absurd h (by simp)
                · rename_i hao
                  rw [except_bind_ok] at h
                  simp only [except_pure, Except.ok.injEq, Option.some.injEq] at h
                  subst h
                  simp_all [hmax, Option.getD]
              | some tk =>
                rw [hmax] at h
                dsimp only [Option.getD] at h
                by_cases htk : (tk == WSOL_MINT) = true
                · simp only [htk, reduceIte] at h
                  rw [calculate_pump_price_eq] at h
                  split at h
                  · rw [except_bind_error] at h; exact absurd h (by simp)
                  · rename_i hao
                    rw [except_bind_ok] at h
                    simp only [except_pure, Except.ok.injEq, Option.some.injEq] at h
                    subst h
                    simp_all [hmax, htk, Option.getD]
                · rw [Bool.not_eq_true] at htk
                  simp only [htk, Bool.false_eq_true, reduceIte] at h
                  rw [calculate_pump_price_eq] at h
                  split at h
                  · rw [except_bind_error] at h; exact absurd h (by simp)
                  · rename_i hao
                    rw [except_bind_ok] at h
                    simp only [except_pure, Except.ok.injEq, Option.some.injEq] at h
                    subst h
                    simp_all [hmax, htk, Option.getD]

/-- Master inversion for the CPMM decoder: amounts and direction come from
the owner-filtered delta scan, `token_in.mint` falls back to the
wrapped-native mint when no negative delta was found, the out magnitude is
non-zero (price guard), and `gas_fee` is the tip-scan fee. -/
theorem parse_cpmm_inversion (loader : PoolLoader) (sig : String)
    (keys : List String) (data : List Nat) (pre post : List Nat)
    (preTB postTB : List TokenBalanceRow) (logs : List String) (t : TradeDetails)
    (h : parse_raydium_cpmm_swap loader sig keys data pre post preTB postTB logs
      = Except.ok (some t)) :
    ∃ u, find_user_wallet keys = Except.ok u ∧
      (cpmmScan u preTB postTB).max_out_amount ≠ 0 ∧
      t.amount_in = (cpmmScan u preTB postTB).max_in_amount ∧
      t.amount_out = (cpmmScan u preTB postTB).max_out_amount ∧
      t.token_in.mint = (cpmmScan u preTB postTB).max_in_token.getD WSOL_MINT ∧
      t.trade_direction = (match (cpmmScan u preTB postTB).max_in_token with
        | some tk => if tk == WSOL_MINT then TradeDirection.buy else TradeDirection.sell
        | none => TradeDirection.sell) ∧
      t.gas_fee = cpmm_calculate_gas_fee pre post keys ∧
      t.dex_type = DexType.raydiumCPMM := by
  unfold parse_raydium_cpmm_swap at h
  split at h
  · simp [except_pure] at h
  · simp only [except_pure, except_bind_ok] at h
    split at h
    · simp [except_pure] at h
    · cases hpi : idxPanic keys (find_pool_account_index keys) with
      | error e => rw [hpi, except_bind_error] at h; exact absurd h (by simp)
      | ok pool_address =>
        rw [hpi, except_bind_ok] at h
        cases huw : find_user_wallet keys with
        | error e => rw [huw, except_bind_error] at h; exact absurd h (by simp)
        | ok user_wallet =>
          rw [huw, except_bind_ok] at h
          refine ⟨user_wallet, rfl, ?_⟩
          cases hmax : (cpmmScan user_wallet preTB postTB).max_in_token with
          | none =>
            rw [hmax] at h
            dsimp only [Option.getD] at h
            simp only [pubkeyFromStr, except_bind_ok] at h
            rw [cpmm_calculate_price_eq] at h
            split at h
            · rw [except_bind_error] at h; exact absurd h (by simp)
            · rename_i hao
              rw [except_bind_ok] at h
              simp only [except_pure, Except.ok.injEq, Option.some.injEq] at h
              subst h
              simp_all [hmax, Option.getD]
          | some tk =>
            rw [hmax] at h
            dsimp only [Option.getD] at h
            by_cases htk : (tk == WSOL_MINT) = true
            · simp only [htk, reduceIte] at h
              simp only [pubkeyFromStr, except_bind_ok] at h
              rw [cpmm_calculate_price_eq] at h
              split at h
              · rw [except_bind_error] at h; exact absurd h (by simp)
              · rename_i hao
                rw [except_bind_ok] at h
                simp only [except_pure, Except.ok.injEq, Option.some.injEq] at h
                subst h
                simp_all [hmax, htk, Option.getD]
            · rw [Bool.not_eq_true] at htk
              simp only [htk, Bool.false_eq_true, reduceIte] at h
              simp only [pubkeyFromStr, except_bind_ok] at h
              rw [cpmm_calculate_price_eq] at h
              split at h
              · rw [except_bind_error] at h; exact absurd h (by simp)
              · rename_i hao
                rw [except_bind_ok] at h
                simp only [except_pure, Except.ok.injEq, Option.some.injEq] at h
                subst h
                simp_all [hmax, htk, Option.getD]

theorem okValue_eq_some {r : PRes (Option TradeDetails)} {t : TradeDetails} :
    okValue r = some t ↔ r = Except.ok (some t) := by
  cases r with
  | ok o => cases o <;> simp [okValue]
  | error e => simp [okValue]

/-- Every early return of `sellGate` neither submitted a swap nor reports
success. -/
theorem sellGate_some {env : ExecEnv} {trade : TradeDetails} {tas : Rat}
    {out : ExecOutcome} (h : sellGate env trade tas = some out) :
    out.swap_submission = none ∧
    ∀ e, out.result = Except.ok e → e.success = false := by
  unfold sellGate at h
  split at h
  · cases hta : env.token_accounts with
    | error e => rw [hta] at h; simp at h; subst h; simp [skippedTrade]
    | ok accts =>
      rw [hta] at h
      dsimp only at h
      split at h
      · simp at h; subst h; simp [skippedTrade]
      · simp at h
  · simp at h

/-- Every early return of `wsolGate` neither submitted a swap nor reports
success. -/
theorem wsolGate_some {env : ExecEnv} {trade : TradeDetails} {tas : Rat}
    {out : ExecOutcome} (h : wsolGate env trade tas = some out) :
    out.swap_submission = none ∧
    ∀ e, out.result = Except.ok e → e.success = false := by
  unfold wsolGate at h
  dsimp only at h
  split_ifs at h with h1 h2
  · cases hsb : env.sol_balance with
    | error e => rw [hsb] at h; simp at h; subst h; simp [skippedTrade]
    | ok bal =>
      rw [hsb] at h
      dsimp only at h
      split at h
      · simp at h; subst h; simp [skippedTrade]
      · cases hbh : env.wrap_blockhash with
        | error e => rw [hbh] at h; simp at h; subst h; simp [skippedTrade]
        | ok u =>
          rw [hbh] at h
          cases hws : env.wrap_send with
          | error e => rw [hws] at h; simp at h; subst h; simp [skippedTrade]
          | ok u2 => rw [hws] at h; simp at h

/-- Every `halt` of `sizeGate` neither submitted a swap nor reports
success. -/
theorem sizeGate_halt {cfg : TradeExecutionConfig} {trade : TradeDetails}
    {out : ExecOutcome} (h : sizeGate cfg trade = GateOutcome.halt out) :
    out.swap_submission = none ∧
    ∀ e, out.result = Except.ok e → e.success = false := by
  unfold sizeGate at h
  dsimp only at h
  split_ifs at h <;>
    (simp at h; subst h; simp [skippedTrade])

/-- On a `proceed`, the effective size respects the clamp: not below the
configured minimum, and not above the maximum unless forced; moreover
without forcing the size is the raw trade size. -/
theorem sizeGate_proceed {cfg : TradeExecutionConfig} {trade : TradeDetails}
    {tas : Rat} {forced : Bool}
    (h : sizeGate cfg trade = GateOutcome.proceed tas forced) :
    cfg.enabled = true ∧
    forced = decide (|cfg.max_trade_amount - cfg.min_trade_amount| < (1 : Rat) / 1000000000) ∧
    tas = (if forced then cfg.max_trade_amount else (trade.amount_in : Rat) / 1000000000) ∧
    ¬(tas < cfg.min_trade_amount) ∧
    ¬(tas > cfg.max_trade_amount ∧ forced = false) := by
  unfold sizeGate at h
  dsimp only at h
  split_ifs at h with he h1 h2 h3 h4 h5 <;>
    simp only [GateOutcome.proceed.injEq] at h <;>
    obtain ⟨h9, h10⟩ := h <;>
    subst h9 <;> subst h10
  · simp_all [not_lt]
  · refine ⟨by simp_all, rfl, ?_, by simp_all [not_lt], by simp_all [not_lt]⟩
    exact (if_neg h1).symm

/-- A pump execution only ever submits the trade it was given. -/
theorem execute_pump_trade_submits {w : String} {env : ExecEnv}
    {trade t : TradeDetails} {ixs : List Instruction}
    (h : (execute_pump_trade w env trade).swap_submission = some (t, ixs)) :
    t = trade ∧
    ixs = [create_associated_token_account_ix w w trade.token_in.mint,
      { program_id := trade.program_id,
        accounts := [AccountMeta.wr w true,
          AccountMeta.wr "" false, AccountMeta.wr "" false, AccountMeta.wr "" false,
          AccountMeta.wr "" false,
          AccountMeta.wr (get_associated_token_address w trade.token_in.mint) false,
          AccountMeta.wr w true, AccountMeta.ro SYSTEM_PROGRAM false,
          AccountMeta.ro TOKEN_PROGRAM false, AccountMeta.ro RENT_SYSVAR false,
          AccountMeta.wr "" false, AccountMeta.wr trade.program_id false],
        data := (match trade.trade_direction with
          | TradeDirection.buy => 0x66
          | TradeDirection.sell => 0x33) :: (u64ToLe trade.amount_in ++ u64ToLe 0) }] := by
  unfold execute_pump_trade create_pump_instructions at h
  cases hbh : env.pump_blockhash with
  | error e => rw [hbh] at h; simp at h
  | ok u =>
    rw [hbh] at h
    dsimp only at h
    cases hps : env.pump_send with
    | ok sig =>
      rw [hps] at h
      simp only [Option.some.injEq, Prod.mk.injEq] at h
      obtain ⟨h1, h2⟩ := h
      exact ⟨h1.symm, h2.symm⟩
    | error e =>
      rw [hps] at h
      simp only [Option.some.injEq, Prod.mk.injEq] at h
      obtain ⟨h1, h2⟩ := h
      exact ⟨h1.symm, h2.symm⟩

/- ===== claims ===== -/

/-- C1 counterexample: on the spec's AMM_V4 buy fixture (declared amount_in
1_000_000_000, user native delta 2_000_000_000 − 999_995_000 = 1_000_005_000)
the decoder emits a trade whose `amount_in` is the declared 1_000_000_000,
not the 1_000_005_000 balance delta the claim requires. -/
theorem claim_C1_counterexample :
    (okValue (parse_raydium_amm_v4_swap emptyLoader "leadsig" ammFixtureKeys ammFixtureData
        [2000000000] [999995000] ammFixturePreRows ammFixturePostRows)).map
      (fun t => t.amount_in) = some 1000000000 ∧
    2000000000 - 999995000 = 1000005000 ∧ (1000000000 : Nat) ≠ 1000005000 :=
  ⟨by decide, by decide, by decide⟩

/-- C1 (amended): in the AMM_V4 dialect, `amount_out` is derived from the
destination-mint balance delta, but `amount_in` equals the amount declared
in instruction bytes 1..9 (little-endian), not the user's balance delta. -/
theorem claim_C1 (loader : PoolLoader) (sig : String) (keys : List String)
    (data : List Nat) (pre post : List Nat)
    (preTB postTB : List TokenBalanceRow) (v : Nat × Nat)
    (h : (okValue (parse_raydium_amm_v4_swap loader sig keys data pre post preTB postTB)).map
      (fun t => (t.amount_in, t.amount_out)) = some v) :
    v.1 = leU64 ((data.drop 1).take 8) ∧
    v.2 = firstAmountForMint postTB (find_mint_for_account preTB "") -
      firstAmountForMint preTB (find_mint_for_account preTB "") := by
  cases hv : okValue (parse_raydium_amm_v4_swap loader sig keys data pre post preTB postTB) with
  | none => rw [hv, Option.map_none'] at h; exact absurd h (by simp)
  | some t =>
    rw [hv] at h
    simp only [Option.map_some', Option.some.injEq] at h
    subst h
    have hinv := parse_amm_inversion loader sig keys data pre post preTB postTB t
      (okValue_eq_some.mp hv)
    exact ⟨hinv.1, hinv.2.1⟩

/-- C1 witness: the amended statement evaluated on the spec's AMM_V4 buy
fixture. -/
theorem claim_C1_witness :
    ((okValue (parse_raydium_amm_v4_swap emptyLoader "leadsig" ammFixtureKeys ammFixtureData
        [2000000000] [999995000] ammFixturePreRows ammFixturePostRows)).map
      (fun t => (t.amount_in, t.amount_out)) = some (1000000000, 25000000)) ∧
    ((1000000000, 25000000).1 = leU64 ((ammFixtureData.drop 1).take 8) ∧
     (1000000000, 25000000).2 =
       firstAmountForMint ammFixturePostRows (find_mint_for_account ammFixturePreRows "") -
       firstAmountForMint ammFixturePreRows (find_mint_for_account ammFixturePreRows "")) :=
  ⟨by decide, claim_C1 emptyLoader "leadsig" ammFixtureKeys ammFixtureData
    [2000000000] [999995000] ammFixturePreRows ammFixturePostRows
    (1000000000, 25000000) (by decide)⟩

/-- C9 counterexample: an AMM_V4 trade whose user lamport delta is 100 is
decoded with `gas_fee = 100`, below the 5,000-lamport floor the claim
asserts (and with no tip-account scan at all). -/
theorem claim_C9_counterexample :
    (okValue (parse_raydium_amm_v4_swap emptyLoader "leadsig" ammFixtureKeys ammFixtureData
        [1100] [1000] ammFixturePreRows ammFixturePostRows)).map
      (fun t => t.gas_fee) = some 100 ∧ (100 : Nat) < 5000 :=
  ⟨by decide, by decide⟩

/-- C9 (amended): each dialect computes `gas_fee` by its own rule — AMM_V4
uses only the saturating index-0 lamport delta (no tip scan, no floor),
CPMM uses 5000 plus the positive deltas of tip-marked accounts (no user
delta), and the bonding-curve decoder returns the constant 5000 (or 0 when
the user index is out of range of the balance arrays). -/
theorem claim_C9 (loader : PoolLoader) (sig : String) (keys : List String)
    (data : List Nat) (pre post : List Nat)
    (preTB postTB : List TokenBalanceRow) (logs : List String) (g : Nat) :
    ((okValue (parse_raydium_amm_v4_swap loader sig keys data pre post preTB postTB)).map
        (fun t => t.gas_fee) = some g → g = raydium_calculate_gas_fee pre post 0) ∧
    ((okValue (parse_raydium_cpmm_swap loader sig keys data pre post preTB postTB logs)).map
        (fun t => t.gas_fee) = some g → g = cpmm_calculate_gas_fee pre post keys) ∧
    ((okValue (parse_pump_trade loader sig keys data pre post preTB postTB logs)).map
        (fun t => t.gas_fee) = some g → g = 5000 ∨ g = 0) := by
  refine ⟨?_, ?_, ?_⟩
  · intro h
    cases hv : okValue (parse_raydium_amm_v4_swap loader sig keys data pre post preTB postTB) with
    | none => rw [hv, Option.map_none'] at h; exact absurd h (by simp)
    | some t =>
      rw [hv] at h
      simp only [Option.map_some', Option.some.injEq] at h
      subst h
      exact (parse_amm_inversion loader sig keys data pre post preTB postTB t
        (okValue_eq_some.mp hv)).2.2.2.2
  · intro h
    cases hv : okValue (parse_raydium_cpmm_swap loader sig keys data pre post preTB postTB logs) with
    | none => rw [hv, Option.map_none'] at h; exact absurd h (by simp)
    | some t =>
      rw [hv] at h
      simp only [Option.map_some', Option.some.injEq] at h
      subst h
      obtain ⟨u, _, _, _, _, _, _, hg, _⟩ := parse_cpmm_inversion loader sig keys data
        pre post preTB postTB logs t (okValue_eq_some.mp hv)
      exact hg
  · intro h
    cases hv : okValue (parse_pump_trade loader sig keys data pre post preTB postTB logs) with
    | none => rw [hv, Option.map_none'] at h; exact absurd h (by simp)
    | some t =>
      rw [hv] at h
      simp only [Option.map_some', Option.some.injEq] at h
      subst h
      obtain ⟨u, m2, _, _, _, _, _, _, hg⟩ := parse_pump_inversion loader sig keys data
        pre post preTB postTB logs t (okValue_eq_some.mp hv)
      rw [hg]
      unfold pump_calculate_gas_fee
      split
      · exact Or.inl rfl
      · exact Or.inr rfl

/-- C9 witness: the amended statement evaluated on the 100-lamport-delta
AMM_V4 fixture. -/
theorem claim_C9_witness :
    ((okValue (parse_raydium_amm_v4_swap emptyLoader "leadsig" ammFixtureKeys ammFixtureData
        [1100] [1000] ammFixturePreRows ammFixturePostRows)).map
      (fun t => t.gas_fee) = some 100) ∧ (100 : Nat) = raydium_calculate_gas_fee [1100] [1000] 0 :=
  ⟨by decide, (claim_C9 emptyLoader "leadsig" ammFixtureKeys ammFixtureData
    [1100] [1000] ammFixturePreRows ammFixturePostRows [] 100).1 (by decide)⟩

/-- C3 counterexample: an AMM_V4 swap instruction whose destination-mint
balance does not change decodes to `Some(Trade)` with `amount_out = 0`,
violating the claimed `amount_out > 0` invariant. -/
theorem claim_C3_counterexample :
    (okValue (parse_raydium_amm_v4_swap emptyLoader "leadsig" ammFixtureKeys ammFixtureData
        [2000000000] [999995000] ammFixturePreRows ammFixtureNoChangeRows)).map
      (fun t => t.amount_out) = some 0 ∧ ¬ (0 : Nat) < 0 :=
  ⟨by decide, by decide⟩

/-- C3 (amended): positivity holds only where a price guard enforces it —
every CPMM trade has `amount_out > 0`, and every bonding-curve *buy* has
both `amount_in > 0` and `amount_out > 0`; the other cases (AMM_V4 trades,
CPMM `amount_in`, bonding-curve sells) can carry zero amounts. -/
theorem claim_C3 (loader : PoolLoader) (sig : String) (keys : List String)
    (data : List Nat) (pre post : List Nat)
    (preTB postTB : List TokenBalanceRow) (logs : List String) (v : Nat)
    (d : TradeDirection) (a b : Nat) :
    ((okValue (parse_raydium_cpmm_swap loader sig keys data pre post preTB postTB logs)).map
        (fun t => t.amount_out) = some v → 0 < v) ∧
    ((okValue (parse_pump_trade loader sig keys data pre post preTB postTB logs)).map
        (fun t => (t.trade_direction, t.amount_in, t.amount_out)) = some (d, a, b) →
      d = TradeDirection.buy → 0 < a ∧ 0 < b) := by
  constructor
  · intro h
    cases hv : okValue (parse_raydium_cpmm_swap loader sig keys data pre post preTB postTB logs) with
    | none => rw [hv, Option.map_none'] at h; exact absurd h (by simp)
    | some t =>
      rw [hv] at h
      simp only [Option.map_some', Option.some.injEq] at h
      subst h
      obtain ⟨u, _, hao, _, haout, _⟩ := parse_cpmm_inversion loader sig keys data
        pre post preTB postTB logs t (okValue_eq_some.mp hv)
      rw [haout]
      exact Nat.pos_of_ne_zero hao
  · intro h hbuy
    cases hv : okValue (parse_pump_trade loader sig keys data pre post preTB postTB logs) with
    | none => rw [hv, Option.map_none'] at h; exact absurd h (by simp)
    | some t =>
      rw [hv] at h
      simp only [Option.map_some', Option.some.injEq, Prod.mk.injEq] at h
      obtain ⟨hd, ha, hb⟩ := h
      obtain ⟨u, m2, _, _, hao, hdir, hbuyc, _⟩ := parse_pump_inversion loader sig keys data
        pre post preTB postTB logs t (okValue_eq_some.mp hv)
      rw [← hd] at hbuy
      obtain ⟨_, hai, haot⟩ := hbuyc hbuy
      constructor
      · rw [← ha, hai]
        have hsome : (pumpScan u preTB postTB).max_in_token.isSome = true := by
          rw [hbuy] at hdir
          cases hmt : (pumpScan u preTB postTB).max_in_token with
          | none => rw [hmt] at hdir; exact absurd hdir (by simp)
          | some tk => rfl
        exact (pumpScan_pos u preTB postTB).1 hsome
      · rw [← hb, haot]
        exact Nat.pos_of_ne_zero hao

/-- C3 witness: the amended statement evaluated on a CPMM fixture
(`amount_out = 100`) and a bonding-curve buy fixture (amounts
1_000_000_000 and 25_000_000). -/
theorem claim_C3_witness :
    (0 : Nat) < 100 ∧ (0 : Nat) < 1000000000 ∧ (0 : Nat) < 25000000 := by
  have hc := (claim_C3 emptyLoader "sig2" cpmmFixtureKeys RAYDIUM_CPMM_SWAP_BASE_INPUT
    [50] [50] cpmmFixturePreRows cpmmFixturePostRows [] 100
    TradeDirection.buy 1000000000 25000000).1 (by
      simp +decide [parse_raydium_cpmm_swap, okValue, cpmm_calculate_price_eq,
        cpmmFixtureKeys, cpmmFixturePreRows, cpmmFixturePostRows,
        find_pool_account_index, findPoolAccountIndexAux, cpmmSkipAccount,
        find_user_wallet, idxPanic, cpmmFindWsol, cpmmScan, cpmmScanStep,
        cpmm_calculate_gas_fee, cpmm_get_token_symbol, cpmm_get_token_decimals,
        pubkeyFromStr, except_bind_ok, except_bind_error, except_pure,
        List.foldl, List.find?, List.findIdx?, parse_swap_info_from_logs])
  have hp := (claim_C3 emptyLoader "sigp" pumpFixtureKeys pumpBuyData
    [10] [10] pumpBuyPreRows pumpBuyPostRows [] 100
    TradeDirection.buy 1000000000 25000000).2 (by
      simp +decide [parse_pump_trade, okValue, calculate_pump_price_eq,
        analyze_pump_trade_eq, pumpFixtureKeys, pumpBuyData, pumpBuyPreRows,
        pumpBuyPostRows, idxPanic, pumpScan, pumpScanStep, pump_calculate_gas_fee,
        extract_token_symbol_from_logs, pubkeyFromStr, except_bind_ok,
        except_bind_error, except_pure, List.foldl, List.findIdx?,
        parse_pump_instruction_data, leU64, u64ToLe]) rfl
  exact ⟨hc, hp.1, hp.2⟩

/-- C2 counterexample: a CPMM instruction whose owner-filtered scan finds no
negative delta decodes to a trade with `direction = Sell` while
`token_in.mint` is the wrapped-native mint (the fallback), violating the
claimed equivalence `direction = Buy ⇔ token_in.mint = WRAPPED_NATIVE`. -/
theorem claim_C2_counterexample :
    (okValue (parse_raydium_cpmm_swap emptyLoader "sig2" cpmmFixtureKeys
        RAYDIUM_CPMM_SWAP_BASE_INPUT [50] [50] cpmmFixturePreRows cpmmFixturePostRows [])).map
      (fun t => (t.trade_direction, t.token_in.mint)) =
      some (TradeDirection.sell, WSOL_MINT) ∧
    TradeDirection.sell ≠ TradeDirection.buy := by
  constructor
  · simp +decide [parse_raydium_cpmm_swap, okValue, cpmm_calculate_price_eq,
      cpmmFixtureKeys, cpmmFixturePreRows, cpmmFixturePostRows,
      find_pool_account_index, findPoolAccountIndexAux, cpmmSkipAccount,
      find_user_wallet, idxPanic, cpmmFindWsol, cpmmScan, cpmmScanStep,
      cpmm_calculate_gas_fee, cpmm_get_token_symbol, cpmm_get_token_decimals,
      pubkeyFromStr, except_bind_ok, except_bind_error, except_pure,
      List.foldl, List.find?, List.findIdx?, parse_swap_info_from_logs]
  · decide

/-- C2 (amended): the forward implication `direction = Buy →
token_in.mint = WRAPPED_NATIVE` holds for all three decoders, and for
AMM_V4 it is an equivalence; the converse fails on the CPMM and
bonding-curve fallback paths. -/
theorem claim_C2 (loader : PoolLoader) (sig : String) (keys : List String)
    (data : List Nat) (pre post : List Nat)
    (preTB postTB : List TokenBalanceRow) (logs : List String)
    (d : TradeDirection) (m : String) :
    ((okValue (parse_raydium_amm_v4_swap loader sig keys data pre post preTB postTB)).map
        (fun t => (t.trade_direction, t.token_in.mint)) = some (d, m) →
      (d = TradeDirection.buy ↔ m = WSOL_MINT)) ∧
    ((okValue (parse_pump_trade loader sig keys data pre post preTB postTB logs)).map
        (fun t => (t.trade_direction, t.token_in.mint)) = some (d, m) →
      (d = TradeDirection.buy → m = WSOL_MINT)) ∧
    ((okValue (parse_raydium_cpmm_swap loader sig keys data pre post preTB postTB logs)).map
        (fun t => (t.trade_direction, t.token_in.mint)) = some (d, m) →
      (d = TradeDirection.buy → m = WSOL_MINT)) := by
  refine ⟨?_, ?_, ?_⟩
  · intro h
    cases hv : okValue (parse_raydium_amm_v4_swap loader sig keys data pre post preTB postTB) with
    | none => rw [hv, Option.map_none'] at h; exact absurd h (by simp)
    | some t =>
      rw [hv] at h
      simp only [Option.map_some', Option.some.injEq, Prod.mk.injEq] at h
      obtain ⟨hd, hm⟩ := h
      obtain ⟨_, _, hmint, hdir, _⟩ := parse_amm_inversion loader sig keys data
        pre post preTB postTB t (okValue_eq_some.mp hv)
      subst hd; subst hm
      rw [hdir, hmint]
      by_cases hw : (find_mint_for_account preTB "" == WSOL_MINT) = true
      · simp only [hw, reduceIte]
        simp [beq_iff_eq] at hw
        simp [hw]
      · rw [Bool.not_eq_true] at hw
        simp only [hw, Bool.false_eq_true, reduceIte]
        simp only [beq_eq_false_iff_ne, ne_eq] at hw
        simp [hw]
  · intro h
    cases hv : okValue (parse_pump_trade loader sig keys data pre post preTB postTB logs) with
    | none => rw [hv, Option.map_none'] at h; exact absurd h (by simp)
    | some t =>
      rw [hv] at h
      simp only [Option.map_some', Option.some.injEq, Prod.mk.injEq] at h
      obtain ⟨hd, hm⟩ := h
      obtain ⟨u, m2, _, _, _, _, hbuyc, _⟩ := parse_pump_inversion loader sig keys data
        pre post preTB postTB logs t (okValue_eq_some.mp hv)
      subst hd; subst hm
      intro hbuy
      exact (hbuyc hbuy).1
  · intro h
    cases hv : okValue (parse_raydium_cpmm_swap loader sig keys data pre post preTB postTB logs) with
    | none => rw [hv, Option.map_none'] at h; exact absurd h (by simp)
    | some t =>
      rw [hv] at h
      simp only [Option.map_some', Option.some.injEq, Prod.mk.injEq] at h
      obtain ⟨hd, hm⟩ := h
      obtain ⟨u, _, _, _, _, hmint, hdir, _⟩ := parse_cpmm_inversion loader sig keys data
        pre post preTB postTB logs t (okValue_eq_some.mp hv)
      subst hd; subst hm
      intro hbuy
      rw [hdir] at hbuy
      rw [hmint]
      cases hmt : (cpmmScan u preTB postTB).max_in_token with
      | none =>
        rw [hmt] at hbuy
        exact absurd hbuy (by simp)
      | some tk =>
        rw [hmt] at hbuy
        dsimp only at hbuy
        by_cases hw : (tk == WSOL_MINT) = true
        · simp [beq_iff_eq] at hw
          simp [hmt, hw, Option.getD]
        · rw [Bool.not_eq_true] at hw
          rw [hw] at hbuy
          exact absurd hbuy (by simp)

/-- C2 witness: the amended statement evaluated on a bonding-curve buy
fixture, whose decoded trade is a Buy with the wrapped-native input mint. -/
theorem claim_C2_witness :
    ((okValue (parse_pump_trade emptyLoader "sigp" pumpFixtureKeys pumpBuyData
        [10] [10] pumpBuyPreRows pumpBuyPostRows [])).map
      (fun t => (t.trade_direction, t.token_in.mint)) =
      some (TradeDirection.buy, WSOL_MINT)) ∧ WSOL_MINT = WSOL_MINT := by
  have hfact : (okValue (parse_pump_trade emptyLoader "sigp" pumpFixtureKeys pumpBuyData
      [10] [10] pumpBuyPreRows pumpBuyPostRows [])).map
      (fun t => (t.trade_direction, t.token_in.mint)) =
      some (TradeDirection.buy, WSOL_MINT) := by
    simp +decide [parse_pump_trade, okValue, calculate_pump_price_eq,
      analyze_pump_trade_eq, pumpFixtureKeys, pumpBuyData, pumpBuyPreRows,
      pumpBuyPostRows, idxPanic, pumpScan, pumpScanStep, pump_calculate_gas_fee,
      extract_token_symbol_from_logs, pubkeyFromStr, except_bind_ok,
      except_bind_error, except_pure, List.foldl, List.findIdx?,
      parse_pump_instruction_data, leU64, u64ToLe]
  exact ⟨hfact, (claim_C2 emptyLoader "sigp" pumpFixtureKeys pumpBuyData
    [10] [10] pumpBuyPreRows pumpBuyPostRows [] TradeDirection.buy WSOL_MINT).2.1
    hfact rfl⟩

/-- Invariants of one `process_transaction` instruction loop: the dedup set
only grows, every decoded key lands in the set, decoded keys were not in
the starting set, and no key is decoded twice. -/
theorem processInstrs_spec (sig : String) (keys : List String) :
    ∀ (l : List (Nat × RawInstr)) (p : List (String × Nat)),
      (∀ x ∈ p, x ∈ (processInstrs sig keys l p).1) ∧
      (∀ x ∈ (processInstrs sig keys l p).2, x ∈ (processInstrs sig keys l p).1) ∧
      (∀ x ∈ (processInstrs sig keys l p).2, x ∉ p) ∧
      (processInstrs sig keys l p).2.Nodup := by
  intro l
  induction l with
  | nil => intro p; simp [processInstrs]
  | cons hd tl ih =>
    intro p
    obtain ⟨i, instr⟩ := hd
    unfold processInstrs
    cases hk : keys.get? instr.program_id_index with
    | none => exact ih p
    | some pid =>
      dsimp only
      by_cases hp1 : (!trackedProgram pid) = true
      · rw [if_pos hp1]; exact ih p
      · rw [if_neg hp1]
        by_cases hp2 : (sig, i) ∈ p
        · rw [if_pos hp2]; exact ih p
        · rw [if_neg hp2]
          dsimp only
          obtain ⟨ih1, ih2, ih3, ih4⟩ := ih ((sig, i) :: p)
          refine ⟨?_, ?_, ?_, ?_⟩
          · intro x hx
            exact ih1 x (List.mem_cons_of_mem _ hx)
          · intro x hx
            rcases List.mem_cons.mp hx with hx | hx
            · subst hx; exact ih1 _ (List.mem_cons_self _ _)
            · exact ih2 x hx
          · intro x hx
            rcases List.mem_cons.mp hx with hx | hx
            · subst hx; exact hp2
            · intro hxp
              exact ih3 x hx (List.mem_cons_of_mem _ hxp)
          · refine List.nodup_cons.mpr ⟨?_, ih4⟩
            intro hmem
            exact ih3 _ hmem (List.mem_cons_self _ _)

/-- Session-level dedup invariants, composed over all stream deliveries. -/
theorem runDispatch_spec :
    ∀ (ds : List Delivery) (p : List (String × Nat)),
      (∀ x ∈ p, x ∈ (runDispatch ds p).1) ∧
      (∀ x ∈ (runDispatch ds p).2, x ∈ (runDispatch ds p).1) ∧
      (∀ x ∈ (runDispatch ds p).2, x ∉ p) ∧
      (runDispatch ds p).2.Nodup := by
  intro ds
  induction ds with
  | nil => intro p; simp [runDispatch]
  | cons d rest ih =>
    intro p
    unfold runDispatch
    dsimp only
    obtain ⟨p1, p2, p3, p4⟩ := processInstrs_spec d.signature d.account_keys
      d.instructions.enum p
    obtain ⟨q1, q2, q3, q4⟩ := ih (processTransaction p d).1
    refine ⟨?_, ?_, ?_, ?_⟩
    · intro x hx
      exact q1 x (p1 x hx)
    · intro x hx
      rcases List.mem_append.mp hx with hx | hx
      · exact q1 x (p2 x hx)
      · exact q2 x hx
    · intro x hx hxp
      rcases List.mem_append.mp hx with hx | hx
      · exact p3 x hx hxp
      · exact q3 x hx (p1 x hxp)
    · refine List.Nodup.append p4 q4 ?_
      intro x hx1 hx2
      exact q3 x hx2 (p2 x hx1)

/-- A duplicate-free list holds each key at most once. -/
theorem count_le_one_of_nodup {l : List (String × Nat)} (h : l.Nodup) (k : String × Nat) :
    l.count k ≤ 1 := by
  induction l with
  | nil => simp
  | cons a l ih =>
    rw [List.nodup_cons] at h
    rw [List.count_cons]
    by_cases ha : k = a
    · subst ha
      have hz : l.count k = 0 := List.count_eq_zero.mpr h.1
      simp [hz]
    · have hne : (a == k) = false := beq_eq_false_iff_ne.mpr (fun hh => ha hh.symm)
      rw [hne]
      simpa using ih h.2

/-- C4: deduplication is at-most-once per `(signature, instruction_index)`
key — across any sequence of stream deliveries the decoder is invoked at
most once per key, and every decoded key stays in the dedup set at the end
of the session (the set is never updated from the decoder's result, so a
decoder error cannot clear it). -/
theorem claim_C4 (ds : List Delivery) (k : String × Nat) :
    (runDispatch ds []).2.count k ≤ 1 ∧
    (k ∈ (runDispatch ds []).2 → k ∈ (runDispatch ds []).1) := by
  obtain ⟨_, h2, _, h4⟩ := runDispatch_spec ds []
  exact ⟨count_le_one_of_nodup h4 k, h2 k⟩

/-- C4 witness: the same delivery processed twice yields exactly one decoder
invocation for its key, which remains in the dedup set. -/
theorem claim_C4_witness :
    (runDispatch [dedupDelivery, dedupDelivery] []).2 = [("dupsig", 0)] ∧
    ((runDispatch [dedupDelivery, dedupDelivery] []).2.count ("dupsig", 0) ≤ 1 ∧
     (("dupsig", 0) ∈ (runDispatch [dedupDelivery, dedupDelivery] []).2 →
      ("dupsig", 0) ∈ (runDispatch [dedupDelivery, dedupDelivery] []).1)) :=
  ⟨by decide, claim_C4 [dedupDelivery, dedupDelivery] ("dupsig", 0)⟩

/-- Whatever the gates did, `execute_trade` on a non-pump trade submits no
swap and any `ExecutedTrade` it returns is failed. -/
theorem execute_trade_nonpump (w : String) (cfg : TradeExecutionConfig)
    (env : ExecEnv) (trade : TradeDetails)
    (hdex : trade.dex_type ≠ DexType.pumpFun) :
    (execute_trade w cfg env trade).swap_submission = none ∧
    ∀ e, (execute_trade w cfg env trade).result = Except.ok e → e.success = false := by
  unfold execute_trade
  cases hsz : sizeGate cfg trade with
  | halt out => exact sizeGate_halt hsz
  | proceed tas forced =>
    dsimp only
    cases hsg : sellGate env trade tas with
    | some out => exact sellGate_some hsg
    | none =>
      dsimp only
      cases hwg : wsolGate env trade tas with
      | some out => exact wsolGate_some hwg
      | none =>
        dsimp only
        cases hd : trade.dex_type with
        | raydiumCPMM => exact ⟨rfl, by intro e he; cases he; rfl⟩
        | pumpFun => exact absurd hd hdex
        | raydiumAmmV4 => exact ⟨rfl, by intro e he; cases he; rfl⟩
        | raydiumCLMM => exact ⟨rfl, by intro e he; cases he; rfl⟩
        | unknown => exact ⟨rfl, by intro e he; cases he; rfl⟩

/-- When a swap is actually submitted, the gates all passed, the DEX is
pump-fun, and the submitted trade is the (possibly forced-size) clone. -/
theorem execute_trade_submission (w : String) (cfg : TradeExecutionConfig)
    (env : ExecEnv) (trade t : TradeDetails) (ixs : List Instruction)
    (h : (execute_trade w cfg env trade).swap_submission = some (t, ixs)) :
    ∃ tas forced, sizeGate cfg trade = GateOutcome.proceed tas forced ∧
      trade.dex_type = DexType.pumpFun ∧
      t = (if forced then { trade with amount_in := f64ToU64 (tas * 1000000000) }
        else trade) := by
  unfold execute_trade at h
  cases hsz : sizeGate cfg trade with
  | halt out =>
    rw [hsz] at h
    dsimp only at h
    rw [(sizeGate_halt hsz).1] at h
    exact absurd h (by simp)
  | proceed tas forced =>
    rw [hsz] at h
    dsimp only at h
    cases hsg : sellGate env trade tas with
    | some out =>
      rw [hsg] at h
      dsimp only at h
      rw [(sellGate_some hsg).1] at h
      exact absurd h (by simp)
    | none =>
      rw [hsg] at h
      dsimp only at h
      cases hwg : wsolGate env trade tas with
      | some out =>
        rw [hwg] at h
        dsimp only at h
        rw [(wsolGate_some hwg).1] at h
        exact absurd h (by simp)
      | none =>
        rw [hwg] at h
        dsimp only at h
        cases hd : trade.dex_type with
        | raydiumCPMM => rw [hd] at h; exact absurd h (by simp)
        | raydiumAmmV4 => rw [hd] at h; exact absurd h (by simp)
        | raydiumCLMM => rw [hd] at h; exact absurd h (by simp)
        | unknown => rw [hd] at h; exact absurd h (by simp)
        | pumpFun =>
          rw [hd] at h
          dsimp only at h
          refine ⟨tas, forced, rfl, rfl, ?_⟩
          have := (execute_pump_trade_submits h).1
          cases hf : forced with
          | true =>
            rw [hf] at this
            simpa using this
          | false =>
            rw [hf] at this
            simpa using this

/-- C7: trades decoded as AMM_V4 or CLMM never reach a submission path: the
dispatcher spawns no executor task for them, and `execute_trade` submits no
swap and returns a failed `ExecutedTrade` for every DEX type except
pump-fun. -/
theorem claim_C7 (slip : Rat) (hasx : Bool) (target : String)
    (trade : TradeDetails) (keys : List String) (w : String)
    (cfg : TradeExecutionConfig) (env : ExecEnv) :
    (trade.dex_type = DexType.raydiumAmmV4 ∨ trade.dex_type = DexType.raydiumCLMM →
      handle_parsed_trade_action slip hasx target trade keys = DispatchAction.noSpawn) ∧
    (trade.dex_type ≠ DexType.pumpFun →
      (execute_trade w cfg env trade).swap_submission = none ∧
      ∀ e, (execute_trade w cfg env trade).result = Except.ok e → e.success = false) := by
  constructor
  · intro hdex
    unfold handle_parsed_trade_action
    rcases hdex with hdex | hdex <;> rw [hdex] <;> split_ifs <;> rfl
  · intro hdex
    exact execute_trade_nonpump w cfg env trade hdex

/-- C7 witness: a leader AMM_V4 trade spawns nothing and a CLMM-typed trade
passed to the executor is failed without submission. -/
theorem claim_C7_witness :
    (handle_parsed_trade_action 0 true TARGET_WALLET leaderAmmTrade cpmmFixtureKeys =
      DispatchAction.noSpawn) ∧
    ((execute_trade "follower" epsCfg okEnv leaderAmmTrade).swap_submission = none ∧
     ∀ e, (execute_trade "follower" epsCfg okEnv leaderAmmTrade).result = Except.ok e →
       e.success = false) :=
  ⟨(claim_C7 0 true TARGET_WALLET leaderAmmTrade cpmmFixtureKeys "follower" epsCfg okEnv).1
      (Or.inl (by decide)),
   (claim_C7 0 true TARGET_WALLET leaderAmmTrade cpmmFixtureKeys "follower" epsCfg okEnv).2
      (by decide)⟩

/-- C6 counterexample: handling a decoded leader pump trade writes exactly
one journal record — the observed-trade record (`copy_signature` absent,
`dex_type` string of the trade) — and no mirror-execution record, although
the executor's `ExecutedTrade` result exists and is only logged. -/
theorem claim_C6_counterexample :
    handle_parsed_trade_journal true leaderPumpTrade = [record_trade leaderPumpTrade] ∧
    (record_trade leaderPumpTrade).copy_signature = none ∧
    (record_trade leaderPumpTrade).dex_type = "PumpFun" :=
  ⟨rfl, rfl, rfl⟩

/-- C6 (amended): handling a decoded trade journals only the
`TradeObserved`-shaped record produced by `record_trade` (when a recorder is
configured); no `MirrorExecuted`-shaped record (`record_execution`, which
always stamps `dex_type = "Unknown"` and has no call site) is ever written
for any executor outcome. -/
theorem claim_C6 (has_recorder : Bool) (trade : TradeDetails)
    (h : trade.dex_type ≠ DexType.unknown) :
    handle_parsed_trade_journal has_recorder trade =
      (if has_recorder then [record_trade trade] else []) ∧
    ∀ e : ExecutedTrade, record_execution e ∉ handle_parsed_trade_journal has_recorder trade := by
  constructor
  · rfl
  · intro e hmem
    unfold handle_parsed_trade_journal at hmem
    cases has_recorder with
    | false => simp at hmem
    | true =>
      simp only [if_true, List.mem_singleton] at hmem
      have hdex : (record_execution e).dex_type = (record_trade trade).dex_type := by
        rw [hmem]
      unfold record_execution record_trade at hdex
      dsimp only at hdex
      cases hd : trade.dex_type with
      | unknown => exact h hd
      | raydiumAmmV4 => rw [hd] at hdex; exact absurd hdex (by simp [dexDebugStr])
      | raydiumCPMM => rw [hd] at hdex; exact absurd hdex (by simp [dexDebugStr])
      | raydiumCLMM => rw [hd] at hdex; exact absurd hdex (by simp [dexDebugStr])
      | pumpFun => rw [hd] at hdex; exact absurd hdex (by simp [dexDebugStr])

/-- C6 witness: the amended statement for the leader pump trade — in
particular a skipped `ExecutedTrade` record is not in the journal. -/
theorem claim_C6_witness :
    (handle_parsed_trade_journal true leaderPumpTrade =
      (if true then [record_trade leaderPumpTrade] else [])) ∧
    record_execution (skippedTrade leaderPumpTrade "no submission recorded")
      ∉ handle_parsed_trade_journal true leaderPumpTrade :=
  ⟨(claim_C6 true leaderPumpTrade (by decide)).1,
   (claim_C6 true leaderPumpTrade (by decide)).2
     (skippedTrade leaderPumpTrade "no submission recorded")⟩

/-- C5 (amended): the forced-size override triggers whenever the configured
bounds differ by less than `1e-9` (in particular when they are equal), in
which case any submitted mirror trade carries exactly the configured
maximum converted to lamports; when the bounds differ by at least `1e-9`, a
trade outside `[min, max]` native units is rejected with a skipped
`ExecutedTrade` and any submitted amount lies within the bounds. -/
theorem claim_C5 (w : String) (cfg : TradeExecutionConfig) (env : ExecEnv)
    (trade : TradeDetails) :
    (cfg.min_trade_amount = cfg.max_trade_amount →
      ∀ t ixs, (execute_trade w cfg env trade).swap_submission = some (t, ixs) →
        t.amount_in = f64ToU64 (cfg.max_trade_amount * 1000000000)) ∧
    ((1 : Rat) / 1000000000 ≤ |cfg.max_trade_amount - cfg.min_trade_amount| →
      ((((trade.amount_in : Rat) / 1000000000 < cfg.min_trade_amount) ∨
        (cfg.max_trade_amount < (trade.amount_in : Rat) / 1000000000)) →
        (execute_trade w cfg env trade).swap_submission = none ∧
        ∃ e, (execute_trade w cfg env trade).result = Except.ok e ∧
          e.success = false ∧ e.error_message.isSome) ∧
      (∀ t ixs, (execute_trade w cfg env trade).swap_submission = some (t, ixs) →
        cfg.min_trade_amount ≤ (t.amount_in : Rat) / 1000000000 ∧
        (t.amount_in : Rat) / 1000000000 ≤ cfg.max_trade_amount)) := by
  refine ⟨?_, ?_⟩
  · intro hmm t ixs hsub
    obtain ⟨tas, forced, hsz, hdex, ht⟩ :=
      execute_trade_submission w cfg env trade t ixs hsub
    obtain ⟨_, hfor, htas, _, _⟩ := sizeGate_proceed hsz
    have hfT : forced = true := by
      rw [hfor]
      apply decide_eq_true
      rw [hmm, sub_self, abs_zero]
      norm_num
    rw [hfT] at ht htas
    simp only [reduceIte] at ht htas
    rw [ht, htas]
  · intro hsep
    have hfF : decide (|cfg.max_trade_amount - cfg.min_trade_amount| <
        (1 : Rat) / 1000000000) = false :=
      decide_eq_false (not_lt.mpr hsep)
    constructor
    · intro hout
      unfold execute_trade sizeGate
      dsimp only
      by_cases he : (!cfg.enabled) = true
      · rw [if_pos he]
        dsimp only
        exact ⟨rfl, skippedTrade trade "trading disabled", rfl, rfl, rfl⟩
      · rw [if_neg he]
        rw [hfF]
        simp only [Bool.false_eq_true, reduceIte]
        by_cases hmin : (trade.amount_in : Rat) / 1000000000 < cfg.min_trade_amount
        · rw [if_pos hmin]
          dsimp only
          exact ⟨rfl, skippedTrade trade "amount below minimum", rfl, rfl, rfl⟩
        · have hgt : cfg.max_trade_amount < (trade.amount_in : Rat) / 1000000000 := by
            rcases hout with h | h
            · exact absurd h hmin
            · exact h
          rw [if_neg hmin, if_pos ⟨hgt, trivial⟩]
          dsimp only
          exact ⟨rfl, skippedTrade trade "amount above maximum", rfl, rfl, rfl⟩
    · intro t ixs hsub
      obtain ⟨tas, forced, hsz, hdex, ht⟩ :=
        execute_trade_submission w cfg env trade t ixs hsub
      obtain ⟨_, hfor, htas, hmin, hmax⟩ := sizeGate_proceed hsz
      have hfF2 : forced = false := by rw [hfor]; exact hfF
      rw [hfF2] at ht htas hmax
      simp only [Bool.false_eq_true, reduceIte] at ht htas
      subst ht
      rw [← htas]
      refine ⟨not_lt.mp hmin, not_lt.mp ?_⟩
      intro hgt
      exact hmax ⟨hgt, rfl⟩

/-- C5 counterexample: with bounds `min = 0.125`, `max = 0.125 + 2^-33`
(distinct, but closer than the `1e-9` tolerance; all values and their
products with 1e9 are exactly representable as IEEE doubles) a 5-native
leader trade lies outside `[min, max]` yet is not rejected — the forced
branch overrides the size and a swap is submitted with 125_000_000
lamports. -/
theorem claim_C5_counterexample :
    epsCfg.min_trade_amount ≠ epsCfg.max_trade_amount ∧
    epsCfg.max_trade_amount < (leaderPumpTrade.amount_in : Rat) / 1000000000 ∧
    (execute_trade "follower" epsCfg okEnv leaderPumpTrade).swap_submission.map
      (fun p => p.1.amount_in) = some 125000000 := by
  refine ⟨by norm_num [epsCfg], by norm_num [epsCfg, leaderPumpTrade], ?_⟩
  have hforced : |epsCfg.max_trade_amount - epsCfg.min_trade_amount| < (1 : Rat) / 1000000000 := by
    have h1 : epsCfg.max_trade_amount - epsCfg.min_trade_amount = 1/8589934592 := by
      norm_num [epsCfg]
    rw [h1, abs_of_pos (by norm_num)]
    norm_num
  have hamt : f64ToU64 (epsCfg.max_trade_amount * 1000000000) = 125000000 := by
    have hq : (epsCfg.max_trade_amount * 1000000000) = 125000000 + 1953125/16777216 := by
      norm_num [epsCfg]
    rw [f64ToU64, hq, if_neg (by norm_num)]
    have hf : ⌊(125000000 + 1953125/16777216 : Rat)⌋ = 125000000 := by
      rw [Int.floor_eq_iff]
      constructor <;> norm_num
    rw [hf]
    simp [U64LIMIT]
  have hsz : sizeGate epsCfg leaderPumpTrade =
      GateOutcome.proceed epsCfg.max_trade_amount true := by
    unfold sizeGate
    rw [decide_eq_true hforced]
    simp only [reduceIte]
    rw [if_neg (by norm_num [epsCfg]), if_neg (by norm_num [epsCfg]), if_neg (by simp)]
  rw [execute_trade, hsz]
  dsimp only
  rw [show sellGate okEnv leaderPumpTrade epsCfg.max_trade_amount = none from rfl]
  dsimp only
  rw [show wsolGate okEnv leaderPumpTrade epsCfg.max_trade_amount = none from rfl]
  dsimp only
  simp only [reduceIte]
  rw [hamt]
  rfl

/-- C5 witness: with `min = max = 0.1` native, the submitted mirror amount
is exactly 100_000_000 lamports. -/
theorem claim_C5_witness :
    forcedCfg.min_trade_amount = forcedCfg.max_trade_amount ∧
    (execute_trade "follower" forcedCfg okEnv leaderPumpTrade).swap_submission.map
      (fun p => p.1.amount_in) = some (f64ToU64 (forcedCfg.max_trade_amount * 1000000000)) ∧
    f64ToU64 (forcedCfg.max_trade_amount * 1000000000) = 100000000 := by
  have hmm : forcedCfg.min_trade_amount = forcedCfg.max_trade_amount := rfl
  have hamt : f64ToU64 (forcedCfg.max_trade_amount * 1000000000) = 100000000 := by
    have hq : (forcedCfg.max_trade_amount * 1000000000) = ((100000000 : Int) : Rat) := by
      norm_num [forcedCfg]
    rw [f64ToU64, hq, if_neg (by norm_num)]
    rw [Int.floor_intCast]
    simp [U64LIMIT]
  have hforced : |forcedCfg.max_trade_amount - forcedCfg.min_trade_amount| < (1 : Rat) / 1000000000 := by
    rw [hmm, sub_self, abs_zero]
    norm_num
  have hsz : sizeGate forcedCfg leaderPumpTrade =
      GateOutcome.proceed forcedCfg.max_trade_amount true := by
    unfold sizeGate
    rw [decide_eq_true hforced]
    simp only [reduceIte]
    rw [if_neg (by norm_num [forcedCfg]), if_neg (by norm_num [forcedCfg]), if_neg (by simp)]
  have hsub : (execute_trade "follower" forcedCfg okEnv leaderPumpTrade).swap_submission.map
      (fun p => p.1.amount_in) = some (f64ToU64 (forcedCfg.max_trade_amount * 1000000000)) := by
    rw [execute_trade, hsz]
    dsimp only
    rw [show sellGate okEnv leaderPumpTrade forcedCfg.max_trade_amount = none from rfl]
    dsimp only
    rw [show wsolGate okEnv leaderPumpTrade forcedCfg.max_trade_amount = none from rfl]
    dsimp only
    simp only [reduceIte]
    rfl
  have happ := (claim_C5 "follower" forcedCfg okEnv leaderPumpTrade).1 hmm
  refine ⟨hmm, ?_, hamt⟩
  cases hs : (execute_trade "follower" forcedCfg okEnv leaderPumpTrade).swap_submission with
  | none => rw [hs] at hsub; simp at hsub
  | some p =>
    obtain ⟨t, ixs⟩ := p
    simp only [Option.map_some']
    rw [happ t ixs hs]

/-- C8 counterexample: an AMM_V4 swap instruction reaching the decoder with
a single-entry `account_keys` (fewer than the 7 the fixed layout assumes)
panics on the out-of-bounds index instead of returning a value or error. -/
theorem claim_C8_counterexample :
    parse_raydium_amm_v4_swap emptyLoader "leadsig" [TARGET_WALLET] ammFixtureData
      [] [] [] [] = Except.error Fault.panics ∧
    ([TARGET_WALLET] : List String).length < 7 :=
  ⟨rfl, by decide⟩

/-- C8 (amended): the dispatcher itself is guarded — an instruction whose
`program_id_index` is out of range is skipped without reaching a decoder,
and the mirror paths length-check `account_keys` (≥ 16 for CPMM, ≥ 11 for
pump) before indexing — but the decoders panic on fixed-position indexing
when `account_keys` is shorter than the protocol layout. -/
theorem claim_C8 (p : List (String × Nat)) (sig : String) (keys : List String)
    (instr : RawInstr) (slip : Rat) (hasx : Bool) (target : String)
    (trade : TradeDetails) (keys2 : List String) :
    (keys.length ≤ instr.program_id_index →
      processTransaction p ⟨sig, keys, [instr]⟩ = (p, [])) ∧
    (trade.dex_type = DexType.raydiumCPMM → keys2.length < 16 →
      handle_parsed_trade_action slip hasx target trade keys2 = DispatchAction.noSpawn) ∧
    (trade.dex_type = DexType.pumpFun → keys2.length < 11 →
      handle_parsed_trade_action slip hasx target trade keys2 = DispatchAction.noSpawn) := by
  refine ⟨?_, ?_, ?_⟩
  · intro hlen
    have hget : keys.get? instr.program_id_index = none := by
      rw [List.get?_eq_none]
      exact hlen
    unfold processTransaction
    dsimp only
    show processInstrs sig keys [(0, instr)] p = (p, [])
    unfold processInstrs
    rw [hget]
    rfl
  · intro hdex hlen
    unfold handle_parsed_trade_action
    rw [hdex]
    dsimp only
    split_ifs with h1 h2 h3 <;> first | rfl | exact absurd h3 (by omega)
  · intro hdex hlen
    unfold handle_parsed_trade_action
    rw [hdex]
    dsimp only
    split_ifs with h1 h2 h3 <;> first | rfl | exact absurd h3 (by omega)

/-- C8 witness: the amended guards evaluated on concrete inputs — an
out-of-range `program_id_index` is skipped, and a 2-entry key list spawns
no CPMM or pump mirror task. -/
theorem claim_C8_witness :
    (processTransaction [] ⟨"s", [], [({ program_id_index := 3, data := [9] } : RawInstr)]⟩ = ([], [])) ∧
    (handle_parsed_trade_action 0 true TARGET_WALLET leaderCpmmTrade cpmmFixtureKeys =
      DispatchAction.noSpawn) ∧
    (handle_parsed_trade_action 0 true TARGET_WALLET leaderPumpTrade cpmmFixtureKeys =
      DispatchAction.noSpawn) :=
  ⟨(claim_C8 [] "s" [] ({ program_id_index := 3, data := [9] } : RawInstr) 0 true TARGET_WALLET
      leaderCpmmTrade cpmmFixtureKeys).1 (by decide),
   (claim_C8 [] "s" [] ({ program_id_index := 3, data := [9] } : RawInstr) 0 true TARGET_WALLET
      leaderCpmmTrade cpmmFixtureKeys).2.1 (by decide) (by decide),
   (claim_C8 [] "s" [] ({ program_id_index := 3, data := [9] } : RawInstr) 0 true TARGET_WALLET
      leaderPumpTrade cpmmFixtureKeys).2.2 (by decide) (by decide)⟩

/-- C10: the assembled CPMM mirror swap instruction is a single instruction
whose data is 16 zero bytes, whose first 13 metas are exactly
[payer, user_in_ata, user_out_ata, pool_state, authority(ro),
amm_config(ro), observation_state(ro), input_vault, output_vault,
input_token_program(ro), output_token_program(ro), input_mint(ro),
output_mint(ro)] with the payer as entry 0 and the only signer, and every
trailing extra account appended read-only non-signer. -/
theorem claim_C10 (trade : TradeDetails) (accounts : RaydiumCpmmSwapAccounts)
    (extras : List String) (mo : Nat) :
    ∃ ix, create_raydium_cpmm_swap_instructions_v2_static trade accounts extras mo =
        Except.ok [ix] ∧
      ix.data = List.replicate 16 0 ∧
      ix.accounts =
        [AccountMeta.wr accounts.payer true,
         AccountMeta.wr accounts.user_input_ata false,
         AccountMeta.wr accounts.user_output_ata false,
         AccountMeta.wr accounts.pool_state false,
         AccountMeta.ro accounts.authority false,
         AccountMeta.ro accounts.amm_config false,
         AccountMeta.ro accounts.observation_state false,
         AccountMeta.wr accounts.input_vault false,
         AccountMeta.wr accounts.output_vault false,
         AccountMeta.ro accounts.input_token_program false,
         AccountMeta.ro accounts.output_token_program false,
         AccountMeta.ro accounts.input_mint false,
         AccountMeta.ro accounts.output_mint false] ++
        extras.map (fun pk => AccountMeta.ro pk false) ∧
      ix.accounts.head? = some (AccountMeta.wr accounts.payer true) ∧
      (AccountMeta.wr accounts.payer true).is_signer = true ∧
      ∀ m ∈ ix.accounts.drop 1, m.is_signer = false := by
  refine ⟨_, rfl, rfl, rfl, rfl, rfl, ?_⟩
  intro m hm
  simp only [List.cons_append, List.nil_append, List.drop_succ_cons, List.drop_zero,
    List.mem_cons, List.mem_append, List.mem_map] at hm
  rcases hm with rfl|rfl|rfl|rfl|rfl|rfl|rfl|rfl|rfl|rfl|rfl|rfl|⟨pk, hpk, rfl⟩ <;> rfl
